import Mathlib

/-!
Verification of the peadb keyspace engine against its specification.

The definitions below are a shallow embedding of the C++ sources
(`src/datastore.cpp`, `src/command.cpp`): each Lean definition mirrors one
source function, with machine integers modelled as `Int`/`Nat` (wrapping made
explicit where the C++ type wraps), `std::unordered_map` modelled as an
association list, and the wall clock passed explicitly as a `now` parameter.
-/

namespace Peadb

/-- Decimal digits of a natural number, most significant first; structural
recursion on a fuel argument so the definition reduces in the kernel
(`n + 1` fuel always suffices since `n / 10 < n`).
Models `std::to_string` on unsigned values. -/
def natToStringAux (fuel n : Nat) : List Char :=
  match fuel with
  | 0 => []
  | fuel + 1 =>
    if n < 10 then [Char.ofNat (48 + n)]
    else natToStringAux fuel (n / 10) ++ [Char.ofNat (48 + n % 10)]

/-- Models `std::to_string` on a non-negative integer. -/
def natToString (n : Nat) : String := ⟨natToStringAux (n + 1) n⟩

/-- Models `std::to_string` on a signed integer. -/
def intToString (z : Int) : String :=
  if z < 0 then "-" ++ natToString z.natAbs else natToString z.natAbs

/-- Per-character upper casing, modelling `upper` (command.cpp) which applies
`std::toupper` to each byte (ASCII). -/
def upperStr (s : String) : String := ⟨s.data.map Char.toUpper⟩

/-- Per-character lower casing, modelling `lower` (command.cpp). -/
def lowerStr (s : String) : String := ⟨s.data.map Char.toLower⟩

/-- RESP protocol version of a session. -/
inductive RespVersion
  | resp2
  | resp3
deriving DecidableEq, Repr

def encode_simple (v : String) : String := "+" ++ v ++ "\r\n"

def encode_error (v : String) : String := "-ERR " ++ v ++ "\r\n"

def encode_integer (v : Int) : String := ":" ++ intToString v ++ "\r\n"

def encode_bulk (v : String) : String :=
  "$" ++ natToString v.length ++ "\r\n" ++ v ++ "\r\n"

def encode_null : RespVersion → String
  | .resp3 => "_\r\n"
  | .resp2 => "$-1\r\n"

def encode_null_array : String := "*-1\r\n"

def encode_array (items : List String) : String :=
  "*" ++ natToString items.length ++ "\r\n" ++ String.join items

/-- `is_error_reply` (command.cpp): non-empty and first byte `'-'`. -/
def is_error_reply (r : String) : Bool :=
  match r.data with
  | [] => false
  | c :: _ => c = '-'

def wrongtype_error_reply : String :=
  "-WRONGTYPE Operation against a key holding the wrong kind of value\r\n"

def busy_script_error_reply : String :=
  "-BUSY Redis is busy running a script. You can only call SCRIPT KILL or SHUTDOWN NOSAVE.\r\n"

def masterdown_stale_reply : String :=
  "-MASTERDOWN Link with MASTER is down and replica-serve-stale-data is set to 'no'.\r\n"

/-- `arity_ok` (command.cpp): exact match for non-negative arity, minimum
for negative arity. -/
def arity_ok (argc : Nat) (arity : Int) : Bool :=
  if arity ≥ 0 then (argc : Int) = arity else (argc : Int) ≥ -arity

/-- `encode_command_resp` (command.cpp): RESP array-of-bulks encoding. -/
def encode_command_resp (args : List String) : String :=
  args.foldl (fun out a => out ++ "$" ++ natToString a.length ++ "\r\n" ++ a ++ "\r\n")
    ("*" ++ natToString args.length ++ "\r\n")

def digitsCountPosAux (fuel n : Nat) : Nat :=
  match fuel with
  | 0 => 0
  | fuel + 1 => if n = 0 then 0 else digitsCountPosAux fuel (n / 10) + 1

/-- The `digits` helper inside `encode_command_resp_size` (command.cpp);
fuel-based so it reduces in the kernel (`n + 1` fuel always suffices). -/
def digitsCount (n : Nat) : Nat := if n = 0 then 1 else digitsCountPosAux (n + 1) n

/-- `encode_command_resp_size` (command.cpp). -/
def encode_command_resp_size (args : List String) : Nat :=
  args.foldl (fun total a => total + 1 + digitsCount a.length + 2 + a.length + 2)
    (1 + digitsCount args.length + 2)

/-! ### C standard library numeric parsing, as used via `std::stoll`,
`std::stoull` and `std::stold` with surrounding `try`/`catch`. -/

/-- Whitespace skipped by `strtol`-family parsing. -/
def isCSpace (c : Char) : Bool :=
  c = ' ' || c = '\t' || c = '\n' || c = '\x0b' || c = '\x0c' || c = '\r'

def digitsToNat (ds : List Char) : Nat :=
  ds.foldl (fun a c => a * 10 + (c.toNat - 48)) 0

/-- Consume a leading run of decimal digits; `none` when no digit leads.
Returns the run's numeric value and the unconsumed remainder. -/
def takeDigits (cs : List Char) : Option (Nat × List Char) :=
  let ds := cs.takeWhile Char.isDigit
  if ds.isEmpty then none else some (digitsToNat ds, cs.dropWhile Char.isDigit)

def int64Min : Int := -9223372036854775808
def int64Max : Int := 9223372036854775807
def uint64Max : Nat := 18446744073709551615

/-- Base-10 prefix parse as in `strtoll`: optional whitespace, optional sign,
at least one digit.  Returns the value and the unconsumed remainder; no
range check. -/
def strtolPrefix (s : String) : Option (Int × List Char) :=
  let cs := s.data.dropWhile isCSpace
  match cs with
  | '-' :: rest => (takeDigits rest).map fun p => (-(p.1 : Int), p.2)
  | '+' :: rest => (takeDigits rest).map fun p => ((p.1 : Int), p.2)
  | _ => (takeDigits cs).map fun p => ((p.1 : Int), p.2)

/-- `std::stoll` under `try`/`catch`: `none` when nothing parses or the value
leaves the signed 64-bit range, otherwise the value of the parsed prefix. -/
def stoll (s : String) : Option Int :=
  match strtolPrefix s with
  | none => none
  | some (v, _) => if v < int64Min || v > int64Max then none else some v

/-- `parse_i64` (command.cpp): `std::stoll` plus the requirement that the
whole string was consumed (`idx == s.size()`). -/
def parse_i64 (s : String) : Option Int :=
  match strtolPrefix s with
  | none => none
  | some (v, rest) =>
    if v < int64Min || v > int64Max then none
    else if rest.isEmpty then some v else none

/-- `std::stoull` under `try`/`catch`: prefix parse; a leading minus negates
modulo 2^64; `none` when no digit parses or the digit value exceeds u64. -/
def stoull (s : String) : Option Nat :=
  let cs := s.data.dropWhile isCSpace
  let signed : Bool × List Char :=
    match cs with
    | '-' :: rest => (true, rest)
    | '+' :: rest => (false, rest)
    | _ => (false, cs)
  match takeDigits signed.2 with
  | none => none
  | some (v, _) =>
    if v > uint64Max then none
    else if signed.1 then some ((2 ^ 64 - v % 2 ^ 64) % 2 ^ 64) else some v

/-- Exact rational carrier for the `long double` model: `num / den`, kept
unnormalized so every operation reduces in the kernel.  All values built
below have `den > 0`, so cross-multiplication gives the correct order. -/
structure Frac where
  num : Int
  den : Int
deriving DecidableEq, Repr

def fle (a b : Frac) : Bool := a.num * b.den ≤ b.num * a.den

def feq (a b : Frac) : Bool := a.num * b.den == b.num * a.den

def fadd (a b : Frac) : Frac := ⟨a.num * b.den + b.num * a.den, a.den * b.den⟩

/-- Model of a C++ `long double` score value: NaN or an exact rational.
Infinities and rounding are not modelled; no theorem below depends on the
numeric value of a score. -/
inductive DVal
  | nan
  | num (q : Frac)
deriving DecidableEq, Repr

/-- IEEE `<=`: any comparison against NaN is false. -/
def dle : DVal → DVal → Bool
  | .num a, .num b => fle a b
  | _, _ => false

/-- IEEE `>=`. -/
def dge : DVal → DVal → Bool
  | .num a, .num b => fle b a
  | _, _ => false

/-- IEEE `!=`: true whenever either side is NaN. -/
def dne : DVal → DVal → Bool
  | .num a, .num b => !feq a b
  | _, _ => true

def dadd : DVal → DVal → DVal
  | .num a, .num b => .num (fadd a b)
  | _, _ => .nan

/-- Rendering of a score, modelling `oss << score`.  The exact digits of the
C++ formatter are not reproduced; no theorem below inspects this string. -/
def dvalToString : DVal → String
  | .nan => "nan"
  | .num q => intToString q.num ++ "/" ++ intToString q.den

/-- Shared decimal core of `std::stold`: input after the optional sign;
returns the parsed magnitude and the unconsumed rest.  Handles
integral/fractional digits and an optional exponent; hex floats and
infinities are not modelled (no theorem below depends on them). -/
def stoldCore (cs : List Char) : Option (Frac × List Char) :=
  let intDigits := cs.takeWhile Char.isDigit
  let rest1 := cs.dropWhile Char.isDigit
  let fracPart : List Char × List Char :=
    match rest1 with
    | '.' :: r => (r.takeWhile Char.isDigit, r.dropWhile Char.isDigit)
    | _ => ([], rest1)
  if intDigits.isEmpty && fracPart.1.isEmpty then none
  else
    let den : Int := ((10 ^ fracPart.1.length : Nat) : Int)
    let mantNum : Int :=
      ((digitsToNat intDigits * 10 ^ fracPart.1.length + digitsToNat fracPart.1 : Nat) : Int)
    let expRes : Int × List Char :=
      match fracPart.2 with
      | 'e' :: r | 'E' :: r =>
        let esigned : Bool × List Char :=
          match r with
          | '-' :: rr => (true, rr)
          | '+' :: rr => (false, rr)
          | _ => (false, r)
        match takeDigits esigned.2 with
        | none => (0, fracPart.2)
        | some (e, rr) => ((if esigned.1 then -(e : Int) else (e : Int)), rr)
      | _ => (0, fracPart.2)
    let v : Frac :=
      if expRes.1 ≥ 0 then ⟨mantNum * ((10 ^ expRes.1.toNat : Nat) : Int), den⟩
      else ⟨mantNum, den * ((10 ^ (-expRes.1).toNat : Nat) : Int)⟩
    some (v, expRes.2)

/-- `parse_f64` (command.cpp): `std::stold` requiring full consumption
(`idx == s.size()`). -/
def parse_f64 (s : String) : Option DVal :=
  let cs0 := s.data.dropWhile isCSpace
  let signed : Bool × List Char :=
    match cs0 with
    | '-' :: rest => (true, rest)
    | '+' :: rest => (false, rest)
    | _ => (false, cs0)
  if signed.2.map Char.toLower = ['n', 'a', 'n'] then some .nan
  else
    match stoldCore signed.2 with
    | some (v, []) => some (.num (if signed.1 then ⟨-v.num, v.den⟩ else v))
    | _ => none

/-- `std::stold` under `try`/`catch`, prefix semantics (as used by
`DataStore::incrbyfloat`, which performs no full-consumption check). -/
def stold (s : String) : Option DVal :=
  let cs0 := s.data.dropWhile isCSpace
  let signed : Bool × List Char :=
    match cs0 with
    | '-' :: rest => (true, rest)
    | '+' :: rest => (false, rest)
    | _ => (false, cs0)
  if (signed.2.take 3).map Char.toLower = ['n', 'a', 'n'] then some .nan
  else
    (stoldCore signed.2).map fun p =>
      .num (if signed.1 then ⟨-p.1.num, p.1.den⟩ else p.1)

/-! ### The keyspace store (datastore.cpp) -/

inductive ValueType
  | string
  | hash
  | list
  | set
  | zset
  | stream
deriving DecidableEq, BEq, Repr

instance : LawfulBEq ValueType where
  eq_of_beq := by intro a b h; cases a <;> cases b <;> first | rfl | cases h
  rfl := by intro a; cases a <;> rfl

/-- `Entry::StreamGroup` (datastore.hpp). -/
structure StreamGroup where
  last_delivered_id : String := "0-0"
  pending_to_consumer : List (String × String) := []
  pending_per_consumer : List (String × Nat) := []
deriving DecidableEq, Repr

/-- `Entry` (datastore.hpp).  The unordered containers are association
lists; u64 fields are `Nat` with wrapping made explicit at each operation. -/
structure Entry where
  type : ValueType := .string
  value : String := ""
  string_force_raw : Bool := false
  hash_value : List (String × String) := []
  list_value : List String := []
  set_value : List String := []
  zset_value : List (String × DVal) := []
  stream_entries : List (String × List (String × String)) := []
  stream_last_ms : Nat := 0
  stream_last_seq : Nat := 0
  stream_groups : List (String × StreamGroup) := []
  expire_at_ms : Option Int := none
deriving DecidableEq, Repr

/-- Association-list lookup, modelling `unordered_map::find`. -/
def alookup {β : Type} (m : List (String × β)) (k : String) : Option β :=
  m.lookup k

/-- Association-list overwrite-or-insert, modelling `unordered_map`
assignment through `operator[]`. -/
def aset {β : Type} (m : List (String × β)) (k : String) (v : β) :
    List (String × β) :=
  if (m.lookup k).isSome then m.map (fun kv => if kv.1 = k then (k, v) else kv)
  else m ++ [(k, v)]

/-- Association-list erase, modelling `unordered_map::erase`. -/
def aerase {β : Type} (m : List (String × β)) (k : String) : List (String × β) :=
  m.filter (fun kv => !(kv.1 == k))

/-- One database: `std::unordered_map<std::string, Entry>`. -/
abbrev DB := List (String × Entry)

def dbFind (db : DB) (k : String) : Option Entry := alookup db k

def dbSet (db : DB) (k : String) (e : Entry) : DB := aset db k e

def dbErase (db : DB) (k : String) : DB := aerase db k

/-- `DataStore::expire_if_needed`. -/
def expire_if_needed (db : DB) (now : Int) (key : String) : Bool × DB :=
  match dbFind db key with
  | none => (false, db)
  | some e =>
    match e.expire_at_ms with
    | none => (false, db)
    | some t => if t > now then (false, db) else (true, dbErase db key)

/-- `DataStore::get`. -/
def get (db : DB) (now : Int) (key : String) : Option String × DB :=
  match dbFind db key with
  | none => (none, db)
  | some e =>
    match e.expire_at_ms with
    | some t => if t ≤ now then (none, dbErase db key) else (some e.value, db)
    | none => (some e.value, db)

/-- `DataStore::set`. -/
def set (db : DB) (now : Int) (key value : String) (nx xx : Bool)
    (expire_at_ms : Option Int) (keep_ttl : Bool) : Bool × DB :=
  let db := (expire_if_needed db now key).2
  match dbFind db key with
  | some e =>
    if nx then (false, db)
    else
      let e := if e.type ≠ ValueType.string then
          { e with hash_value := [], list_value := [], set_value := [],
                   zset_value := [], stream_entries := [], stream_groups := [] }
        else e
      let e := { e with type := ValueType.string, value := value, string_force_raw := false }
      let e := if keep_ttl then e else { e with expire_at_ms := expire_at_ms }
      (true, dbSet db key e)
  | none =>
    if xx then (false, db)
    else
      (true, dbSet db key { type := ValueType.string, value := value,
                            string_force_raw := false, expire_at_ms := expire_at_ms })

/-- `DataStore::del`. -/
def del (db : DB) (now : Int) (key : String) : Bool × DB :=
  let db := (expire_if_needed db now key).2
  match dbFind db key with
  | none => (false, db)
  | some _ => (true, dbErase db key)

/-- `DataStore::type_of`. -/
def type_of (db : DB) (now : Int) (key : String) : String × DB :=
  let db := (expire_if_needed db now key).2
  match dbFind db key with
  | none => ("none", db)
  | some e =>
    (match e.type with
     | .string => "string"
     | .hash => "hash"
     | .list => "list"
     | .set => "set"
     | .zset => "zset"
     | .stream => "stream", db)

/-- `DataStore::is_wrongtype_for_string`. -/
def is_wrongtype_for_string (db : DB) (now : Int) (key : String) : Bool × DB :=
  let db := (expire_if_needed db now key).2
  match dbFind db key with
  | none => (false, db)
  | some e => (e.type != ValueType.string, db)

/-- `DataStore::is_wrongtype_for_string_noexpire`: observes the entry
without applying lazy expiration. -/
def is_wrongtype_for_string_noexpire (db : DB) (key : String) : Bool :=
  match dbFind db key with
  | none => false
  | some e => e.type != ValueType.string

/-- `DataStore::is_wrongtype_for_zset`. -/
def is_wrongtype_for_zset (db : DB) (now : Int) (key : String) : Bool × DB :=
  let db := (expire_if_needed db now key).2
  match dbFind db key with
  | none => (false, db)
  | some e => (e.type != ValueType.zset, db)

/-- `DataStore::is_wrongtype_for_stream`. -/
def is_wrongtype_for_stream (db : DB) (now : Int) (key : String) : Bool × DB :=
  let db := (expire_if_needed db now key).2
  match dbFind db key with
  | none => (false, db)
  | some e => (e.type != ValueType.stream, db)

/-- `DataStore::pexpiretime`. -/
def pexpiretime (db : DB) (now : Int) (key : String) : Int × DB :=
  let db := (expire_if_needed db now key).2
  match dbFind db key with
  | none => (-2, db)
  | some e =>
    match e.expire_at_ms with
    | none => (-1, db)
    | some t => (t, db)

/-- `DataStore::expire`: stores the absolute expiry on an existing key. -/
def expire (db : DB) (now : Int) (key : String) (expire_at_ms : Int) : Bool × DB :=
  let db := (expire_if_needed db now key).2
  match dbFind db key with
  | none => (false, db)
  | some e => (true, dbSet db key { e with expire_at_ms := some expire_at_ms })

/-- `DataStore::lazy_expire_key`. -/
def lazy_expire_key (db : DB) (now : Int) (key : String) : Bool × DB :=
  match dbFind db key with
  | none => (false, db)
  | some e =>
    match e.expire_at_ms with
    | none => (false, db)
    | some t => if t > now then (false, db) else (true, dbErase db key)

/-- Two's-complement wrap into the `long long` range.  The C++ addition
`base + by` in `DataStore::incrby` has undefined behaviour on signed
overflow; the compiled code wraps, which this makes explicit. -/
def wrap_ll (z : Int) : Int := (z + 2 ^ 63) % 2 ^ 64 - 2 ^ 63

/-- `DataStore::incrby`.  Returns (value, ok, err, db). -/
def incrby (db : DB) (now : Int) (key : String) (incr : Int) :
    Int × Bool × String × DB :=
  let r := get db now key
  let db1 := r.2
  let base? : Option Int :=
    match r.1 with
    | none => some 0
    | some v => stoll v
  match base? with
  | none => (0, false, "value is not an integer or out of range", db1)
  | some base =>
    let out := wrap_ll (base + incr)
    let s := set db1 now key (intToString out) false false none false
    (out, true, "", s.2)

/-- `DataStore::incrbyfloat`.  Returns (formatted value, ok, err, db).
Arithmetic uses the `DVal` model of `long double`; `dvalToString` stands in
for the `%.17Lg` formatting with trailing-zero stripping (no theorem below
inspects the digits of the stored string). -/
def incrbyfloat (db : DB) (now : Int) (key : String) (incr : DVal) :
    String × Bool × String × DB :=
  let r := get db now key
  let db1 := r.2
  let base? : Option DVal :=
    match r.1 with
    | none => some (.num ⟨0, 1⟩)
    | some v => stold v
  match base? with
  | none => ("", false, "value is not a valid float", db1)
  | some base =>
    let out := dadd base incr
    let s := dvalToString out
    let st := set db1 now key s false false none false
    (s, true, "", st.2)

/-- `DataStore::ZAddResult` (datastore.hpp): note `valid` defaults to true
and `zadd_one` never assigns it. -/
structure ZAddResult where
  wrongtype : Bool := false
  valid : Bool := true
  changed : Bool := false
  added : Bool := false
  score : DVal := .num ⟨0, 1⟩
deriving DecidableEq, Repr

/-- `DataStore::zadd_one`. -/
def zadd_one (db : DB) (now : Int) (key : String) (score : DVal) (member : String)
    (nx xx gt lt incr : Bool) : ZAddResult × DB :=
  let db := (expire_if_needed db now key).2
  let create : Option (Entry × DB) :=
    match dbFind db key with
    | none =>
      let e : Entry := { type := .zset }
      some (e, dbSet db key e)
    | some e => if e.type != ValueType.zset then none else some (e, db)
  match create with
  | none => ({ wrongtype := true }, db)
  | some (e, db) =>
    match alookup e.zset_value member with
    | some old =>
      if nx then ({}, db)
      else
        let new_score := if incr then dadd old score else score
        if gt && dle new_score old then ({}, db)
        else if lt && dge new_score old then ({}, db)
        else if dne old new_score then
          ({ changed := true, score := new_score },
           dbSet db key { e with zset_value := aset e.zset_value member new_score })
        else ({ score := old }, db)
    | none =>
      if xx then ({}, db)
      else
        ({ added := true, changed := true, score := score },
         dbSet db key { e with zset_value := aset e.zset_value member score })

/-! ### Stream operations (datastore.cpp) -/

/-- Split at the first occurrence of `c`; `none` when absent.  Models
`std::string::find` plus the two `substr` calls. -/
def splitFirst (c : Char) : List Char → Option (List Char × List Char)
  | [] => none
  | x :: xs =>
    if x = c then some ([], xs)
    else (splitFirst c xs).map fun p => (x :: p.1, p.2)

/-- `parse_stream_id_pair` (datastore.cpp). -/
def parse_stream_id_pair (id : String) : Option (Nat × Nat) :=
  match splitFirst '-' id.data with
  | none => none
  | some (a, b) =>
    match stoull ⟨a⟩, stoull ⟨b⟩ with
    | some ms, some seq => some (ms, seq)
    | _, _ => none

/-- `stream_id_gt` (datastore.cpp): numeric compare when both ids parse,
otherwise lexicographic string compare. -/
def stream_id_gt (a b : String) : Bool :=
  match parse_stream_id_pair a, parse_stream_id_pair b with
  | some (am, asq), some (bm, bsq) =>
    if am ≠ bm then decide (bm < am) else decide (bsq < asq)
  | _, _ => decide (b < a)

/-- `DataStore::xadd`.  Returns (assigned id?, wrongtype, err, db).  The u64
fields wrap modulo 2^64 exactly as the C++ unsigned arithmetic does. -/
def xadd (db : DB) (now : Int) (key id : String)
    (fields : List (String × String)) : Option String × Bool × String × DB :=
  let db := (expire_if_needed db now key).2
  let create : Option (Entry × DB) :=
    match dbFind db key with
    | none =>
      let e : Entry := { type := .stream }
      some (e, dbSet db key e)
    | some e => if e.type != ValueType.stream then none else some (e, db)
  match create with
  | none => (none, true, "", db)
  | some (e, db) =>
    let finish : Nat × Nat → Option String × Bool × String × DB := fun p =>
      let out_id := natToString p.1 ++ "-" ++ natToString p.2
      let e' := { e with stream_last_ms := p.1, stream_last_seq := p.2,
                         stream_entries := e.stream_entries ++ [(out_id, fields)] }
      (some out_id, false, "", dbSet db key e')
    if id = "*" then
      let nowU := (now % 2 ^ 64).toNat
      if nowU > e.stream_last_ms then finish (nowU, 0)
      else finish (e.stream_last_ms, (e.stream_last_seq + 1) % 2 ^ 64)
    else
      let parsed : Option (Nat × Nat) :=
        match splitFirst '-' id.data with
        | none => (stoull id).map fun ms => (ms, 0)
        | some (a, b) =>
          match stoull ⟨a⟩, stoull ⟨b⟩ with
          | some ms, some seq => some (ms, seq)
          | _, _ => none
      match parsed with
      | none => (none, false, "Invalid stream ID specified as stream command argument", db)
      | some (ms, seq) =>
        if ms < e.stream_last_ms ∨ (ms = e.stream_last_ms ∧ seq ≤ e.stream_last_seq) then
          (none, false,
           "The ID specified in XADD is equal or smaller than the target stream top item", db)
        else finish (ms, seq)

/-- Result rows of `DataStore::xreadgroup`. -/
abbrev XReadRows := List (String × List (String × List (String × String)))

/-- The per-stream loop of `DataStore::xreadgroup`. -/
def xreadgroupGo (group consumer : String) (now : Int) :
    List (String × String) → DB → XReadRows → XReadRows × Bool × String × DB
  | [], db, acc => (acc, false, "", db)
  | (key, idreq) :: rest, db, acc =>
    let db := (expire_if_needed db now key).2
    match dbFind db key with
    | none => xreadgroupGo group consumer now rest db acc
    | some e =>
      if e.type != ValueType.stream then ([], true, "", db)
      else
        match alookup e.stream_groups group with
        | none => ([], false, "NOGROUP No such key or consumer group", db)
        | some g =>
          if idreq = ">" then
            match e.stream_entries.find? (fun ent => stream_id_gt ent.1 g.last_delivered_id) with
            | none => xreadgroupGo group consumer now rest db acc
            | some ent =>
              let g' := { g with
                pending_to_consumer := aset g.pending_to_consumer ent.1 consumer,
                pending_per_consumer := aset g.pending_per_consumer consumer
                  ((alookup g.pending_per_consumer consumer).getD 0 + 1),
                last_delivered_id := ent.1 }
              let db := dbSet db key { e with stream_groups := aset e.stream_groups group g' }
              xreadgroupGo group consumer now rest db (acc ++ [(key, [ent])])
          else xreadgroupGo group consumer now rest db acc

/-- `DataStore::xreadgroup`.  Entries are delivered (and the PEL mutated)
only for a `">"` id request; any other per-stream id request leaves the
group untouched and contributes no rows, as in the source. -/
def xreadgroup (db : DB) (now : Int) (group consumer : String)
    (streams : List (String × String)) : XReadRows × Bool × String × DB :=
  xreadgroupGo group consumer now streams db []

/-- `DataStore::xack`.  Returns (acked, wrongtype, err, db). -/
def xack (db : DB) (now : Int) (key group : String) (ids : List String) :
    Int × Bool × String × DB :=
  let db := (expire_if_needed db now key).2
  match dbFind db key with
  | none => (0, false, "", db)
  | some e =>
    if e.type != ValueType.stream then (0, true, "", db)
    else
      match alookup e.stream_groups group with
      | none => (0, false, "NOGROUP No such key or consumer group", db)
      | some g =>
        let step : Nat × StreamGroup → String → Nat × StreamGroup := fun st id =>
          match alookup st.2.pending_to_consumer id with
          | none => st
          | some consumer =>
            let ptc := aerase st.2.pending_to_consumer id
            let ppc :=
              match alookup st.2.pending_per_consumer consumer with
              | some n =>
                if n > 0 then
                  (if n - 1 = 0 then aerase st.2.pending_per_consumer consumer
                   else aset st.2.pending_per_consumer consumer (n - 1))
                else st.2.pending_per_consumer
              | none => st.2.pending_per_consumer
            (st.1 + 1, { st.2 with pending_to_consumer := ptc, pending_per_consumer := ppc })
        let res := ids.foldl step (0, g)
        ((res.1 : Int), false, "",
         dbSet db key { e with stream_groups := aset e.stream_groups group res.2 })

/-- `DataStore::xpending_summary`.  Returns (summary, wrongtype, err, db). -/
def xpending_summary (db : DB) (now : Int) (key group : String) :
    List String × Bool × String × DB :=
  let db := (expire_if_needed db now key).2
  match dbFind db key with
  | none => (["0", "", "", ""], false, "", db)
  | some e =>
    if e.type != ValueType.stream then ([], true, "", db)
    else
      match alookup e.stream_groups group with
      | none => ([], false, "NOGROUP No such key or consumer group", db)
      | some g =>
        if g.pending_to_consumer.isEmpty then (["0", "", "", ""], false, "", db)
        else
          let mm : String × String :=
            match g.pending_to_consumer.map Prod.fst with
            | [] => ("", "")
            | h :: t =>
              t.foldl (fun mm id =>
                ((if stream_id_gt mm.1 id then id else mm.1),
                 (if stream_id_gt id mm.2 then id else mm.2))) (h, h)
          ([natToString g.pending_to_consumer.length, mm.1, mm.2,
            natToString g.pending_per_consumer.length], false, "", db)

/-! ### Sessions and command handlers (command.cpp) -/

/-- `SessionState` (command.hpp), restricted to the fields the dispatcher
and the transaction controller read or write. -/
structure Session where
  resp_version : RespVersion := .resp2
  db_index : Int := 0
  in_multi : Bool := false
  multi_dirty : Bool := false
  queued : List (List String) := []
  watched_epoch : Option Nat := none
  watched_digests : List (String × Option String) := []
  asking : Bool := false
deriving Repr

/-- A handler invocation's outcome: the reply, the session and store it
leaves behind, the close request, and the argument vectors the handler
itself passed to `append_replication_event` while executing (the dispatcher
postlude appends the command's own event separately).  `epoch_bumps` is the
number of `g_mutation_epoch` increments the handler performed through
nested dispatch while executing: the `EVAL`/`EVALSHA`/`FCALL` handlers
re-enter `handle_command` for each `redis.call` (main.cpp wires
`g_lua_dispatch` to `handle_command`; lua_engine.cpp invokes it), and every
nested successful write runs the postlude increment.  Plain handlers leave
it at 0. -/
structure HandlerOut where
  reply : String
  session : Session
  db : DB
  should_close : Bool := false
  events : List (List String) := []
  epoch_bumps : Nat := 0

/-- The `GET` command handler (command.cpp): note the wrongtype probe runs
on the un-expired entry (`is_wrongtype_for_string_noexpire`), before the
lazy expiration step. -/
def get_handler (args : List String) (session : Session) (db : DB) (now : Int) :
    HandlerOut :=
  let key := args.getD 1 ""
  if is_wrongtype_for_string_noexpire db key then
    { reply := wrongtype_error_reply, session, db }
  else
    let lz := lazy_expire_key db now key
    let ev : List (List String) := if lz.1 then [["DEL", key]] else []
    let r := get lz.2 now key
    { reply :=
        match r.1 with
        | some v => encode_bulk v
        | none => encode_null RespVersion.resp2,
      session, db := r.2, events := ev }

/-- The `DEL` command handler (command.cpp). -/
def del_handler (args : List String) (session : Session) (db : DB) (now : Int) :
    HandlerOut :=
  let res := (args.drop 1).foldl
    (fun (st : Nat × DB) k =>
      let d := del st.2 now k
      (st.1 + (if d.1 then 1 else 0), d.2)) (0, db)
  { reply := encode_integer (res.1 : Int), session, db := res.2 }

/-- The `INCRBY` command handler (command.cpp). -/
def incrby_handler (args : List String) (session : Session) (db : DB) (now : Int) :
    HandlerOut :=
  match parse_i64 (args.getD 2 "") with
  | none => { reply := encode_error "value is not an integer or out of range", session, db }
  | some incr =>
    let key := args.getD 1 ""
    let w := is_wrongtype_for_string db now key
    if w.1 then { reply := wrongtype_error_reply, session, db := w.2 }
    else
      let r := incrby w.2 now key incr
      { reply := if r.2.1 then encode_integer r.1 else encode_error r.2.2.1,
        session, db := r.2.2.2 }

/-- The option-scanning loop of the `EXPIRE` handler (command.cpp);
`inl` carries the unsupported option. -/
def expireOptsGo : List String → Bool × Bool × Bool × Bool →
    Sum String (Bool × Bool × Bool × Bool)
  | [], fl => .inr fl
  | a :: rest, (nx, xx, gt, lt) =>
    let opt := upperStr a
    if opt = "NX" then expireOptsGo rest (true, xx, gt, lt)
    else if opt = "XX" then expireOptsGo rest (nx, true, gt, lt)
    else if opt = "GT" then expireOptsGo rest (nx, xx, true, lt)
    else if opt = "LT" then expireOptsGo rest (nx, xx, gt, true)
    else .inl a

/-- The `EXPIRE` command handler (command.cpp).  The two guards mirror the
source's checks against `INT64_MAX/1000` (C++ truncating division) and
against overflow of `base + delta`. -/
def expire_handler (args : List String) (session : Session) (db : DB) (now : Int) :
    HandlerOut :=
  match parse_i64 (args.getD 2 "") with
  | none => { reply := encode_error "value is not an integer or out of range", session, db }
  | some sec =>
    if sec > 9223372036854775 ∨ sec < -9223372036854775 then
      { reply := encode_error "invalid expire time in 'expire' command", session, db }
    else
      let delta := sec * 1000
      let base := now
      if (delta > 0 ∧ base > int64Max - delta) ∨ (delta < 0 ∧ base < int64Min - delta) then
        { reply := encode_error "invalid expire time in 'expire' command", session, db }
      else
        match expireOptsGo (args.drop 3) (false, false, false, false) with
        | .inl bad => { reply := encode_error ("Unsupported option " ++ bad), session, db }
        | .inr (nx, xx, gt, lt) =>
          if gt ∧ lt then
            { reply := encode_error "GT and LT options at the same time are not compatible",
              session, db }
          else if nx ∧ (xx ∨ gt ∨ lt) then
            { reply := encode_error
                "NX and XX, GT or LT options at the same time are not compatible",
              session, db }
          else
            let target := base + delta
            let cur := pexpiretime db now (args.getD 1 "")
            let db := cur.2
            if cur.1 = -2 then { reply := encode_integer 0, session, db }
            else if nx ∧ cur.1 ≠ -1 then { reply := encode_integer 0, session, db }
            else if xx ∧ cur.1 < 0 then { reply := encode_integer 0, session, db }
            else if gt ∧ (cur.1 < 0 ∨ target ≤ cur.1) then
              { reply := encode_integer 0, session, db }
            else if lt ∧ cur.1 ≥ 0 ∧ target ≥ cur.1 then
              { reply := encode_integer 0, session, db }
            else
              let r := expire db now (args.getD 1 "") target
              { reply := encode_integer (if r.1 then 1 else 0), session, db := r.2 }

/-- The option-scanning loop of the `ZADD` handler (command.cpp): consumes
leading option tokens, returns the flags and the remaining
score-member tokens. -/
def zaddOptsGo : List String → Bool × Bool × Bool × Bool × Bool × Bool →
    (Bool × Bool × Bool × Bool × Bool × Bool) × List String
  | [], fl => (fl, [])
  | a :: rest, (nx, xx, gt, lt, ch, incr) =>
    let o := upperStr a
    if o = "NX" then zaddOptsGo rest (true, xx, gt, lt, ch, incr)
    else if o = "XX" then zaddOptsGo rest (nx, true, gt, lt, ch, incr)
    else if o = "GT" then zaddOptsGo rest (nx, xx, true, lt, ch, incr)
    else if o = "LT" then zaddOptsGo rest (nx, xx, gt, true, ch, incr)
    else if o = "CH" then zaddOptsGo rest (nx, xx, gt, lt, true, incr)
    else if o = "INCR" then zaddOptsGo rest (nx, xx, gt, lt, ch, true)
    else ((nx, xx, gt, lt, ch, incr), a :: rest)

/-- The score-member loop of the `ZADD` handler (command.cpp); `inl`
carries an early error reply.  The singleton case is unreachable behind the
handler's even-length check and mirrors the loop simply stopping. -/
def zaddPairsGo (now : Int) (key : String) (nx xx gt lt incr : Bool) :
    List String → DB → Nat → Nat → String →
    Sum (String × DB) (Nat × Nat × String × DB)
  | [], db, added, changed, incr_out => .inr (added, changed, incr_out, db)
  | [_], db, added, changed, incr_out => .inr (added, changed, incr_out, db)
  | s :: m :: rest, db, added, changed, incr_out =>
    match parse_f64 s with
    | none => .inl (encode_error "value is not a valid float", db)
    | some score =>
      let r := zadd_one db now key score m nx xx gt lt incr
      if r.1.wrongtype then .inl (wrongtype_error_reply, r.2)
      else if !r.1.valid then .inl (encode_error "syntax error", r.2)
      else
        zaddPairsGo now key nx xx gt lt incr rest r.2
          (added + (if r.1.added then 1 else 0))
          (changed + (if r.1.changed then 1 else 0))
          (if incr then dvalToString r.1.score else incr_out)

/-- The `ZADD` command handler (command.cpp). -/
def zadd_handler (args : List String) (session : Session) (db : DB) (now : Int) :
    HandlerOut :=
  let scan := zaddOptsGo (args.drop 2) (false, false, false, false, false, false)
  let (nx, xx, gt, lt, ch, incr) := scan.1
  let pairs := scan.2
  if pairs.isEmpty ∨ pairs.length % 2 ≠ 0 then
    { reply := encode_error "syntax error", session, db }
  else if incr ∧ pairs.length ≠ 2 then
    { reply := encode_error "INCR option supports a single increment-element pair",
      session, db }
  else
    let w := is_wrongtype_for_zset db now (args.getD 1 "")
    if w.1 then { reply := wrongtype_error_reply, session, db := w.2 }
    else
      match zaddPairsGo now (args.getD 1 "") nx xx gt lt incr pairs w.2 0 0 "" with
      | .inl p => { reply := p.1, session, db := p.2 }
      | .inr (added, changed, incr_out, db) =>
        { reply :=
            if incr then encode_bulk incr_out
            else encode_integer ((if ch then changed else added : Nat) : Int),
          session, db }

/-! ### Dispatcher and replication journal (command.cpp) -/

/-- Cluster slot routing states. -/
inductive SlotRoute
  | owned
  | moved
  | ask
deriving DecidableEq, Repr

/-- The process-wide state read and written by `handle_command` and
`append_replication_event` (the command.cpp anonymous-namespace globals).
Slot routing is abstracted per key: `slot_route k` stands for
`g_slot_routes[cluster_keyslot(k)]` and `keyslot k` for
`cluster_keyslot(k)`; no claim depends on the CRC16 computation. -/
structure Globals where
  mutation_epoch : Nat := 0
  master_repl_offset : Int := 0
  replication_events : List String := []
  last_repl_db : Int := 0
  capture_exec_replication : Bool := false
  exec_replication_events : List String := []
  exec_last_repl_db : Int := -1
  exec_write_event_count : Nat := 0
  config_maxmemory : Int := 0
  config_min_replicas_to_write : Int := 0
  replication_role : String := "master"
  config_replica_serve_stale_data : Bool := true
  replica_stale : Bool := false
  script_busy : Bool := false
  script_allow_oom : Bool := false
  executing_exec : Bool := false
  loading_replication : Bool := false
  slot_route : String → SlotRoute := fun _ => .owned
  keyslot : String → Nat := fun _ => 0
  cluster_redirect_addr : String := "127.0.0.1:7000"

/-- Does an encoded reply read as a positive RESP integer (a `:` byte
followed by digits parsing via `stoll` to `n > 0`)?  This is the DEL/UNLINK
suppression probe of `append_replication_event` (command.cpp). -/
def positive_int_reply (s : String) : Bool :=
  match s.data with
  | [] => false
  | c :: rest =>
    if c ≠ ':' then false
    else
      match stoll ⟨rest⟩ with
      | none => false
      | some n => if n ≤ 0 then false else true

/-- The rewrite step of `append_replication_event` (command.cpp): computes
whether the event is emitted and the (possibly rewritten) argument vector.
`reply?` is the `reply_ptr` argument; `db` is the store at call time, read
by the `key_exists` / `abs_ttl` probes. -/
def replication_rewrite (args : List String) (reply? : Option String) (db : DB)
    (now : Int) : Bool × List String :=
  match args with
  | [] => (false, [])
  | a0 :: _ =>
    let cmd := upperStr a0
    let key_exists : String → Bool := fun k => (type_of db now k).1 != "none"
    let abs_ttl : String → Int := fun k => (pexpiretime db now k).1
    let arg : Nat → String := fun i => args.getD i ""
    if cmd = "GETEX" then
      if args.length = 2 then (false, args)
      else if upperStr (arg 2) = "PERSIST" then
        if key_exists (arg 1) then (true, ["PERSIST", arg 1]) else (false, args)
      else
        let abs := abs_ttl (arg 1)
        if abs = -2 then (true, ["DEL", arg 1])
        else if abs ≥ 0 then (true, ["PEXPIREAT", arg 1, intToString abs])
        else (false, args)
    else if cmd = "GETDEL" ∧ args.length = 2 then (true, ["DEL", arg 1])
    else if (cmd = "DEL" ∨ cmd = "UNLINK") ∧ reply?.isSome then
      (if positive_int_reply (reply?.getD "") then (true, args) else (false, args))
    else if cmd = "SET" ∧ args.length ≥ 4 then
      (match (args.drop 3).find? (fun aopt =>
          let o := upperStr aopt
          o = "EX" || o = "PX" || o = "EXAT" || o = "PXAT") with
       | none => (true, args)
       | some eopt =>
         let abs := abs_ttl (arg 1)
         if abs ≥ 0 then
           (true, ["SET", arg 1, arg 2, if eopt = "pxat" then "pxat" else "PXAT",
                   intToString abs])
         else (true, args))
    else if (cmd = "SETEX" ∨ cmd = "PSETEX") ∧ args.length = 4 then
      let abs := abs_ttl (arg 1)
      if abs ≥ 0 then (true, ["SET", arg 1, arg 3, "PXAT", intToString abs])
      else (true, args)
    else if (cmd = "EXPIRE" ∨ cmd = "PEXPIRE" ∨ cmd = "EXPIREAT" ∨ cmd = "PEXPIREAT") ∧
        args.length ≥ 3 then
      let abs := abs_ttl (arg 1)
      if abs = -2 then (true, ["DEL", arg 1])
      else if abs ≥ 0 then (true, ["PEXPIREAT", arg 1, intToString abs])
      else (false, args)
    else if cmd = "RESTORE" ∧ args.length ≥ 4 then
      let abs := abs_ttl (arg 1)
      if abs ≥ 0 then
        let absttl := ((args.drop 4).find? (fun a => upperStr a = "ABSTTL")).getD "ABSTTL"
        (true, ["RESTORE", arg 1, intToString abs, "\x7b" ++ arg 3 ++ "\x7d", absttl])
      else (true, args)
    else if cmd = "SCRIPT" then (false, args)
    else if cmd = "XREADGROUP" then (false, args)
    else if cmd = "EVAL" ∨ cmd = "EVALSHA" ∨ cmd = "EVAL_RO" ∨ cmd = "FCALL" ∨
        cmd = "FCALL_RO" then (false, args)
    else if cmd = "INCRBYFLOAT" ∧ args.length ≥ 3 then
      (match (get db now (arg 1)).1 with
       | some v => (true, ["SET", arg 1, v, "KEEPTTL"])
       | none => (true, args))
    else (true, args)

/-- The journal-suppression conditions of spec section 4.5, stated per
command on the post-execution store and the reply: an event is suppressed
for plain `GETEX` (no option, `PERSIST` on a missing key, or an option form
that leaves the key without a ttl), for `DEL`/`UNLINK` whose reply is not a
positive integer, for the expire family when the key afterwards carries no
ttl, and unconditionally for `SCRIPT`, `XREADGROUP` and the
`EVAL`/`EVALSHA`/`EVAL_RO`/`FCALL`/`FCALL_RO` forms, whose keyspace effects
are journaled through re-entry instead.  All other write commands are
journaled. -/
def journal_suppressed (db : DB) (now : Int) (args : List String)
    (reply : String) : Bool :=
  match args with
  | [] => true
  | a0 :: _ =>
    let cmd := upperStr a0
    let key_exists : String → Bool := fun k => (type_of db now k).1 != "none"
    let abs_ttl : String → Int := fun k => (pexpiretime db now k).1
    let arg : Nat → String := fun i => args.getD i ""
    if cmd = "GETEX" then
      if args.length = 2 then true
      else if upperStr (arg 2) = "PERSIST" then
        if key_exists (arg 1) then false else true
      else
        let abs := abs_ttl (arg 1)
        if abs = -2 then false
        else if abs ≥ 0 then false
        else true
    else if cmd = "GETDEL" ∧ args.length = 2 then false
    else if (cmd = "DEL" ∨ cmd = "UNLINK") ∧ (some reply).isSome then
      (if positive_int_reply ((some reply).getD "") then false else true)
    else if cmd = "SET" ∧ args.length ≥ 4 then false
    else if (cmd = "SETEX" ∨ cmd = "PSETEX") ∧ args.length = 4 then false
    else if (cmd = "EXPIRE" ∨ cmd = "PEXPIRE" ∨ cmd = "EXPIREAT" ∨ cmd = "PEXPIREAT") ∧
        args.length ≥ 3 then
      let abs := abs_ttl (arg 1)
      if abs = -2 then false
      else if abs ≥ 0 then false
      else true
    else if cmd = "RESTORE" ∧ args.length ≥ 4 then false
    else if cmd = "SCRIPT" then true
    else if cmd = "XREADGROUP" then true
    else if cmd = "EVAL" ∨ cmd = "EVALSHA" ∨ cmd = "EVAL_RO" ∨ cmd = "FCALL" ∨
        cmd = "FCALL_RO" then true
    else if cmd = "INCRBYFLOAT" ∧ args.length ≥ 3 then false
    else false

/-- `append_replication_event` (command.cpp): applies the rewrite above and
appends to the journal (or, in exec-capture mode, to the capture buffer),
inserting a `SELECT` when the db changed.  The `key_exists` / `abs_ttl`
probes' own lazy-expiry store mutations affect no journal content and are
not propagated. -/
def append_replication_event (args : List String) (session : Session)
    (reply? : Option String) (db : DB) (now : Int) (g : Globals) : Globals :=
  match args with
  | [] => g
  | _ :: _ =>
    let eo := replication_rewrite args reply? db now
    if !eo.1 || eo.2.isEmpty then g
    else if g.capture_exec_replication then
      let g :=
        if g.exec_last_repl_db ≠ session.db_index then
          { g with
            exec_replication_events := g.exec_replication_events ++
              [encode_command_resp ["SELECT", intToString session.db_index]],
            exec_last_repl_db := session.db_index }
        else g
      { g with
        exec_replication_events := g.exec_replication_events ++ [encode_command_resp eo.2],
        exec_write_event_count := g.exec_write_event_count + 1 }
    else
      let g :=
        if session.db_index ≠ g.last_repl_db then
          { g with
            replication_events := g.replication_events ++
              [encode_command_resp ["SELECT", intToString session.db_index]],
            last_repl_db := session.db_index }
        else g
      { g with replication_events := g.replication_events ++ [encode_command_resp eo.2] }

/-- `CommandSpec` (command.cpp).  `flag_bits` is derived from `flags` at
table construction; `is_write` reads the flag list directly, exactly as the
construction loop sets the write bit iff `"write"` appears. -/
structure CommandSpecM where
  name : String
  arity : Int
  flags : List String
  first_key : Int := 0
  last_key : Int := 0
  key_step : Int := 0
  handler : List String → Session → DB → Int → HandlerOut

def CommandSpecM.is_write (s : CommandSpecM) : Bool := s.flags.contains "write"

/-- The `-MOVED <slot> <addr>` redirection reply (command.cpp). -/
def moved_reply (slot : Nat) (addr : String) : String :=
  "-MOVED " ++ natToString slot ++ " " ++ addr ++ "\r\n"

/-- The `-ASK <slot> <addr>` redirection reply (command.cpp). -/
def ask_reply (slot : Nat) (addr : String) : String :=
  "-ASK " ++ natToString slot ++ " " ++ addr ++ "\r\n"

/-- The outcome of one `handle_command` dispatch. -/
structure DispatchOut where
  reply : String
  session : Session
  db : DB
  g : Globals
  should_close : Bool := false

/-- The body of `handle_command` after the script-busy gate (command.cpp):
MULTI queueing, table lookup with module fallback, arity check, the
OOM / NOREPLICAS / MASTERDOWN / READONLY gates, slot routing, handler
execution and the write postlude (epoch, offset, journal). -/
def handle_command_core (table : String → Option CommandSpecM)
    (modules : String → Option (List String → Option String))
    (args : List String) (cmd : String) (session : Session) (db : DB)
    (g : Globals) (now : Int) : DispatchOut :=
  if session.in_multi ∧ cmd ≠ "EXEC" ∧ cmd ≠ "DISCARD" ∧ cmd ≠ "MULTI" ∧ cmd ≠ "QUIT" then
    if cmd = "WATCH" then
      { reply := encode_error "WATCH inside MULTI is not allowed", session, db, g }
    else if cmd = "SAVE" ∨ cmd = "SHUTDOWN" then
      { reply := "-ERR Command not allowed inside a transaction\r\n",
        session := { session with multi_dirty := true }, db, g }
    else
      match table cmd with
      | none =>
        { reply := encode_error "unknown command",
          session := { session with multi_dirty := true }, db, g }
      | some spec =>
        if !arity_ok args.length spec.arity then
          { reply := encode_error
              ("wrong number of arguments for '" ++ lowerStr cmd ++ "' command"),
            session := { session with multi_dirty := true }, db, g }
        else if spec.is_write ∧ g.config_maxmemory = 1 ∧ ¬g.script_allow_oom ∧
            cmd ≠ "EVAL" ∧ cmd ≠ "EVALSHA" ∧ cmd ≠ "FLUSHALL" ∧ cmd ≠ "FLUSHDB" then
          { reply := "-OOM command not allowed when used memory > 'maxmemory'.\r\n",
            session := { session with multi_dirty := true }, db, g }
        else
          { reply := encode_simple "QUEUED",
            session := { session with queued := session.queued ++ [args] }, db, g }
  else
    match table cmd with
    | none =>
      match modules cmd with
      | none => { reply := encode_error "unknown command", session, db, g }
      | some mfn =>
        { reply := (mfn args).getD (encode_null RespVersion.resp2), session, db, g }
    | some spec =>
      if !arity_ok args.length spec.arity then
        { reply := encode_error
            ("wrong number of arguments for '" ++ lowerStr cmd ++ "' command"),
          session, db, g }
      else if spec.is_write ∧ g.config_maxmemory = 1 ∧ ¬g.script_allow_oom ∧
          cmd ≠ "CONFIG" ∧ cmd ≠ "EVAL" ∧ cmd ≠ "EVALSHA" ∧ cmd ≠ "FLUSHALL" ∧
          cmd ≠ "FLUSHDB" then
        { reply := "-OOM command not allowed when used memory > 'maxmemory'.\r\n",
          session, db, g }
      else if spec.is_write ∧ g.config_min_replicas_to_write > 0 ∧
          cmd ≠ "EVAL" ∧ cmd ≠ "EVALSHA" ∧ cmd ≠ "CONFIG" ∧ cmd ≠ "REPLICAOF" ∧
          cmd ≠ "SLAVEOF" then
        { reply := "-NOREPLICAS Not enough good replicas to write.\r\n", session, db, g }
      else if ¬spec.is_write ∧ g.replication_role = "slave" ∧
          ¬g.config_replica_serve_stale_data ∧ g.replica_stale ∧
          cmd ≠ "REPLICAOF" ∧ cmd ≠ "SLAVEOF" ∧ cmd ≠ "INFO" ∧ cmd ≠ "MULTI" ∧
          cmd ≠ "EXEC" ∧ cmd ≠ "DISCARD" ∧ cmd ≠ "COMMAND" ∧ cmd ≠ "CONFIG" then
        { reply := masterdown_stale_reply, session, db, g }
      else if spec.is_write ∧ g.replication_role = "slave" ∧ ¬g.executing_exec ∧
          ¬g.loading_replication ∧ cmd ≠ "REPLICAOF" ∧ cmd ≠ "SLAVEOF" then
        { reply := "-READONLY You can't write against a read only replica.\r\n",
          session, db, g }
      else
        let doRoute := spec.first_key > 0 ∧ spec.first_key < (args.length : Int)
        let routeKey := args.getD spec.first_key.toNat ""
        if doRoute ∧ g.slot_route routeKey = SlotRoute.moved then
          { reply := moved_reply (g.keyslot routeKey) g.cluster_redirect_addr,
            session, db, g }
        else if doRoute ∧ g.slot_route routeKey = SlotRoute.ask ∧ ¬session.asking then
          { reply := ask_reply (g.keyslot routeKey) g.cluster_redirect_addr,
            session, db, g }
        else
          let session :=
            if doRoute ∧ g.slot_route routeKey = SlotRoute.ask ∧ session.asking then
              { session with asking := false }
            else session
          let session :=
            if cmd ≠ "ASKING" then { session with asking := false } else session
          let hout := spec.handler args session db now
          let g := { g with mutation_epoch := g.mutation_epoch + hout.epoch_bumps }
          let g := hout.events.foldl
            (fun gg e => append_replication_event e hout.session none hout.db now gg) g
          if spec.is_write ∧ ¬(is_error_reply hout.reply = true) then
            let g := { g with
              mutation_epoch := g.mutation_epoch + 1,
              master_repl_offset := g.master_repl_offset +
                (encode_command_resp_size args : Int) }
            let g := append_replication_event args hout.session (some hout.reply)
              hout.db now g
            { reply := hout.reply, session := hout.session, db := hout.db, g,
              should_close := hout.should_close }
          else
            { reply := hout.reply, session := hout.session, db := hout.db, g,
              should_close := hout.should_close }

/-- `handle_command` (command.cpp): protocol-error sentinels, then the
script-busy gate, then `handle_command_core`.  `is_busy_session` stands for
the identity test `g_busy_script_session == &session`. -/
def handle_command (table : String → Option CommandSpecM)
    (modules : String → Option (List String → Option String))
    (is_busy_session : Bool) (args : List String) (session : Session) (db : DB)
    (g : Globals) (now : Int) : DispatchOut :=
  if args.isEmpty ∨ args.headD "" = "__empty__" ∨ args.headD "" = "__parse_error__" then
    { reply := encode_error "Protocol error", session, db, g }
  else
    let cmd := upperStr (args.headD "")
    let is_script_kill :=
      (cmd = "SCRIPT" ∧ args.length = 2 ∧ upperStr (args.getD 1 "") = "KILL") ∨
      (cmd = "FUNCTION" ∧ args.length = 2 ∧ upperStr (args.getD 1 "") = "KILL")
    if g.script_busy ∧ ¬is_script_kill then
      if cmd = "PING" ∧ is_busy_session then
        { reply :=
            if args.length = 2 then encode_bulk (args.getD 1 "")
            else encode_simple "PONG",
          session, db, g }
      else if ¬session.in_multi ∧ cmd = "MULTI" then
        handle_command_core table modules args cmd session db g now
      else if session.in_multi ∧ cmd = "EXEC" then
        { reply := "-EXECABORT Transaction discarded because of previous errors: BUSY Redis is busy running a script. You can only call SCRIPT KILL or SHUTDOWN NOSAVE.\r\n",
          session := { session with
                       in_multi := false, multi_dirty := false, queued := [],
                       watched_epoch := none, watched_digests := [] }, db, g }
      else if session.in_multi ∧ cmd ≠ "DISCARD" ∧ cmd ≠ "MULTI" ∧ cmd ≠ "QUIT" then
        { reply := busy_script_error_reply,
          session := { session with multi_dirty := true }, db, g }
      else
        { reply := busy_script_error_reply, session, db, g }
    else handle_command_core table modules args cmd session db g now

/-- Transaction-state reset shared by the DISCARD/EXEC abort paths. -/
def clearTxn (s : Session) : Session :=
  { s with in_multi := false, multi_dirty := false, queued := [],
           watched_epoch := none, watched_digests := [] }

/-- The `WATCH` command handler (command.cpp).  `digest` stands for
`store().debug_digest_value` at WATCH time. -/
def watch_handler (digest : String → Option String) (args : List String)
    (session : Session) (g : Globals) : String × Session :=
  if session.in_multi then (encode_error "WATCH inside MULTI is not allowed", session)
  else
    let session := { session with watched_epoch := some g.mutation_epoch }
    let session := (args.drop 1).foldl
      (fun s k => { s with watched_digests := aset s.watched_digests k (digest k) }) session
    (encode_simple "OK", session)

/-- The `EXEC` command handler (command.cpp).  `digestNow` stands for
`store().debug_digest_value` at EXEC time; `runQueued` abstracts the loop
that re-enters `handle_command` once per queued command (it receives the
session, store and globals as the loop starts — capture mode on — and
returns the replies plus the state the nested dispatches leave behind). -/
def exec_handler (table : String → Option CommandSpecM)
    (digestNow : String → Option String)
    (runQueued : Session → DB → Globals → List (List String) →
      List String × Session × DB × Globals)
    (session : Session) (db : DB) (g : Globals) :
    String × Session × DB × Globals :=
  if ¬session.in_multi then (encode_error "EXEC without MULTI", session, db, g)
  else if session.multi_dirty then
    ("-EXECABORT Transaction discarded because of previous errors.\r\n",
     clearTxn session, db, g)
  else if ¬session.watched_digests.isEmpty ∧
      session.watched_digests.any (fun kd => digestNow kd.1 ≠ kd.2) then
    (encode_null_array, clearTxn session, db, g)
  else
    let queued := session.queued
    let session := { session with in_multi := false, multi_dirty := false, queued := [] }
    let has_replof := queued.any (fun q => !q.isEmpty &&
      (upperStr (q.headD "") == "REPLICAOF" || upperStr (q.headD "") == "SLAVEOF"))
    let has_write := queued.any (fun q => !q.isEmpty &&
      (match table (upperStr (q.headD "")) with
       | some sp => sp.is_write
       | none => false))
    let has_read := queued.any (fun q => !q.isEmpty &&
      (match table (upperStr (q.headD "")) with
       | some sp => !sp.is_write
       | none => false))
    let g1 := { g with capture_exec_replication := true, exec_replication_events := [],
                       exec_last_repl_db := g.last_repl_db, exec_write_event_count := 0,
                       executing_exec := true }
    if has_write ∧ g.config_min_replicas_to_write > 0 then
      ("-EXECABORT Transaction discarded because of previous errors: NOREPLICAS Not enough good replicas to write.\r\n",
       { session with watched_epoch := none, watched_digests := [] }, db,
       { g1 with executing_exec := false, capture_exec_replication := false,
                 exec_replication_events := [], exec_write_event_count := 0 })
    else if has_write ∧ g.config_maxmemory = 1 then
      ("-EXECABORT Transaction discarded because of previous errors: OOM command not allowed when used memory > 'maxmemory'.\r\n",
       { session with watched_epoch := none, watched_digests := [] }, db,
       { g1 with executing_exec := false, capture_exec_replication := false,
                 exec_replication_events := [], exec_write_event_count := 0 })
    else if has_read ∧ g.replication_role = "slave" ∧
        ¬g.config_replica_serve_stale_data ∧ g.replica_stale then
      ("-EXECABORT Transaction discarded because of previous errors: MASTERDOWN Link with MASTER is down and replica-serve-stale-data is set to 'no'.\r\n",
       { session with watched_epoch := none, watched_digests := [] }, db,
       { g1 with executing_exec := false, capture_exec_replication := false,
                 exec_replication_events := [], exec_write_event_count := 0 })
    else
      let lo := runQueued session db g1 queued
      let replies := lo.1
      let session := lo.2.1
      let dbAfter := lo.2.2.1
      let g2 : Globals :=
        { lo.2.2.2 with executing_exec := false, capture_exec_replication := false }
      let g3 : Globals :=
        if ¬has_replof ∧ g2.exec_write_event_count > 1 then
          { g2 with
            replication_events := g2.replication_events ++ [encode_command_resp ["MULTI"]] ++
              g2.exec_replication_events ++ [encode_command_resp ["EXEC"]],
            last_repl_db := g2.exec_last_repl_db }
        else if ¬has_replof ∧ g2.exec_write_event_count = 1 ∧
            ¬g2.exec_replication_events.isEmpty then
          let g2a :=
            if g2.exec_last_repl_db ≠ g2.last_repl_db then
              { g2 with replication_events := g2.replication_events ++
                  [encode_command_resp ["SELECT", intToString g2.exec_last_repl_db]] }
            else g2
          { g2a with
            replication_events := g2a.replication_events ++
              [g2.exec_replication_events.getLastD ""],
            last_repl_db := g2.exec_last_repl_db }
        else g2
      (encode_array replies,
       { session with watched_epoch := none, watched_digests := [] }, dbAfter,
       { g3 with exec_replication_events := [], exec_write_event_count := 0 })

/-- A concrete `SET`-shaped table entry used to exercise the dispatcher:
write-flagged, with the arity and key layout of `SET` and a handler that
replies `+OK`, leaving the dispatcher-level bookkeeping under test. -/
def fixtureWriteSpec : CommandSpecM :=
  { name := "SET", arity := -3, flags := ["write", "denyoom"], first_key := 1,
    last_key := 1, key_step := 1,
    handler := fun _ s db _ => { reply := encode_simple "OK", session := s, db } }

/-- A concrete `DEL` table entry wired to the real `del_handler`. -/
def fixtureDelSpec : CommandSpecM :=
  { name := "DEL", arity := -2, flags := ["write"], first_key := 1, last_key := -1,
    key_step := 1, handler := del_handler }

/-- A concrete `EVAL`-shaped table entry whose handler stands for a script
that performs one nested write through the re-entrant dispatch (the
`redis.call` bridge re-enters `handle_command`, whose postlude increments
the epoch) and then fails: the outer reply is an error, yet the epoch has
already moved. -/
def fixtureScriptErrSpec : CommandSpecM :=
  { name := "EVAL", arity := -3, flags := ["write", "movablekeys"], first_key := 0,
    last_key := 0, key_step := 0,
    handler := fun _ s db _ =>
      { reply := encode_error "user_script error", session := s, db,
        epoch_bumps := 1 } }

/-- As `fixtureScriptErrSpec`, but the script succeeds after its nested
write: the outer dispatch then adds its own postlude increment on top. -/
def fixtureScriptOkSpec : CommandSpecM :=
  { name := "EVAL", arity := -3, flags := ["write", "movablekeys"], first_key := 0,
    last_key := 0, key_step := 0,
    handler := fun _ s db _ =>
      { reply := encode_simple "OK", session := s, db, epoch_bumps := 1 } }

/-! ### Helper lemmas -/

theorem char_ofNat_digit (m : Nat) (h : m < 10) :
    48 ≤ (Char.ofNat (48 + m)).toNat ∧ (Char.ofNat (48 + m)).toNat ≤ 57 := by
  interval_cases m <;> exact ⟨by decide, by decide⟩

theorem natToStringAux_head_digit (fuel n : Nat) (hf : fuel ≠ 0) :
    ∃ c cs, natToStringAux fuel n = c :: cs ∧ 48 ≤ c.toNat ∧ c.toNat ≤ 57 := by
  induction fuel generalizing n with
  | zero => exact absurd rfl hf
  | succ fuel ih =>
    by_cases h : n < 10
    · exact ⟨Char.ofNat (48 + n), [], by rw [natToStringAux]; simp [h],
        (char_ofNat_digit n h).1, (char_ofNat_digit n h).2⟩
    · rcases Nat.eq_zero_or_pos fuel with hz | hpos
      · subst hz
        refine ⟨Char.ofNat (48 + n % 10), [], ?_, (char_ofNat_digit _ (Nat.mod_lt _ (by omega))).1,
          (char_ofNat_digit _ (Nat.mod_lt _ (by omega))).2⟩
        rw [natToStringAux]
        simp [h, natToStringAux]
      · obtain ⟨c, cs, hrec, h1, h2⟩ := ih (n / 10) (by omega)
        exact ⟨c, cs ++ [Char.ofNat (48 + n % 10)],
          by rw [natToStringAux]; simp [h, hrec], h1, h2⟩

theorem replication_rewrite_emit_eq (args : List String) (reply : String)
    (db : DB) (now : Int) :
    (replication_rewrite args (some reply) db now).1 =
      !journal_suppressed db now args reply := by
  unfold replication_rewrite journal_suppressed
  cases args with
  | nil => rfl
  | cons a rest =>
    dsimp only
    by_cases h1 : upperStr a = "GETEX"
    · rw [if_pos h1, if_pos h1]
      split_ifs <;> rfl
    rw [if_neg h1, if_neg h1]
    by_cases h2 : upperStr a = "GETDEL" ∧ (a :: rest).length = 2
    · rw [if_pos h2, if_pos h2]; rfl
    rw [if_neg h2, if_neg h2]
    by_cases h3 : (upperStr a = "DEL" ∨ upperStr a = "UNLINK") ∧
        ((some reply).isSome = true)
    · rw [if_pos h3, if_pos h3]
      split_ifs <;> rfl
    rw [if_neg h3, if_neg h3]
    by_cases h4 : upperStr a = "SET" ∧ (a :: rest).length ≥ 4
    · rw [if_pos h4, if_pos h4]
      split <;> first | rfl | (split_ifs <;> rfl)
    rw [if_neg h4, if_neg h4]
    by_cases h5 : (upperStr a = "SETEX" ∨ upperStr a = "PSETEX") ∧ (a :: rest).length = 4
    · rw [if_pos h5, if_pos h5]
      split_ifs <;> rfl
    rw [if_neg h5, if_neg h5]
    by_cases h6 : (upperStr a = "EXPIRE" ∨ upperStr a = "PEXPIRE" ∨
        upperStr a = "EXPIREAT" ∨ upperStr a = "PEXPIREAT") ∧ (a :: rest).length ≥ 3
    · rw [if_pos h6, if_pos h6]
      split_ifs <;> rfl
    rw [if_neg h6, if_neg h6]
    by_cases h7 : upperStr a = "RESTORE" ∧ (a :: rest).length ≥ 4
    · rw [if_pos h7, if_pos h7]
      split_ifs <;> rfl
    rw [if_neg h7, if_neg h7]
    by_cases h8 : upperStr a = "SCRIPT"
    · rw [if_pos h8, if_pos h8]; rfl
    rw [if_neg h8, if_neg h8]
    by_cases h9 : upperStr a = "XREADGROUP"
    · rw [if_pos h9, if_pos h9]; rfl
    rw [if_neg h9, if_neg h9]
    by_cases h10 : upperStr a = "EVAL" ∨ upperStr a = "EVALSHA" ∨
        upperStr a = "EVAL_RO" ∨ upperStr a = "FCALL" ∨ upperStr a = "FCALL_RO"
    · rw [if_pos h10, if_pos h10]; rfl
    rw [if_neg h10, if_neg h10]
    by_cases h11 : upperStr a = "INCRBYFLOAT" ∧ (a :: rest).length ≥ 3
    · rw [if_pos h11, if_pos h11]
      split <;> rfl
    rw [if_neg h11, if_neg h11]; rfl

theorem replication_rewrite_out_ne (args : List String) (reply? : Option String)
    (db : DB) (now : Int) (hargs : args ≠ []) :
    (replication_rewrite args reply? db now).2.isEmpty = false := by
  unfold replication_rewrite
  cases args with
  | nil => exact absurd rfl hargs
  | cons a rest =>
    dsimp only
    by_cases h1 : upperStr a = "GETEX"
    · rw [if_pos h1]
      split_ifs <;> rfl
    rw [if_neg h1]
    by_cases h2 : upperStr a = "GETDEL" ∧ (a :: rest).length = 2
    · rw [if_pos h2]; rfl
    rw [if_neg h2]
    by_cases h3 : (upperStr a = "DEL" ∨ upperStr a = "UNLINK") ∧
        (reply?.isSome = true)
    · rw [if_pos h3]
      split_ifs <;> rfl
    rw [if_neg h3]
    by_cases h4 : upperStr a = "SET" ∧ (a :: rest).length ≥ 4
    · rw [if_pos h4]
      split <;> first | rfl | (split_ifs <;> rfl)
    rw [if_neg h4]
    by_cases h5 : (upperStr a = "SETEX" ∨ upperStr a = "PSETEX") ∧ (a :: rest).length = 4
    · rw [if_pos h5]
      split_ifs <;> rfl
    rw [if_neg h5]
    by_cases h6 : (upperStr a = "EXPIRE" ∨ upperStr a = "PEXPIRE" ∨
        upperStr a = "EXPIREAT" ∨ upperStr a = "PEXPIREAT") ∧ (a :: rest).length ≥ 3
    · rw [if_pos h6]
      split_ifs <;> rfl
    rw [if_neg h6]
    by_cases h7 : upperStr a = "RESTORE" ∧ (a :: rest).length ≥ 4
    · rw [if_pos h7]
      split_ifs <;> rfl
    rw [if_neg h7]
    by_cases h8 : upperStr a = "SCRIPT"
    · rw [if_pos h8]; rfl
    rw [if_neg h8]
    by_cases h9 : upperStr a = "XREADGROUP"
    · rw [if_pos h9]; rfl
    rw [if_neg h9]
    by_cases h10 : upperStr a = "EVAL" ∨ upperStr a = "EVALSHA" ∨
        upperStr a = "EVAL_RO" ∨ upperStr a = "FCALL" ∨ upperStr a = "FCALL_RO"
    · rw [if_pos h10]; rfl
    rw [if_neg h10]
    by_cases h11 : upperStr a = "INCRBYFLOAT" ∧ (a :: rest).length ≥ 3
    · rw [if_pos h11]
      split <;> rfl
    rw [if_neg h11]; rfl

theorem alookup_aerase_self {β : Type} (m : List (String × β)) (k : String) :
    alookup (aerase m k) k = none := by
  induction m with
  | nil => rfl
  | cons kv rest ih =>
    obtain ⟨k1, v1⟩ := kv
    unfold alookup aerase at ih ⊢
    rw [List.filter_cons]
    by_cases h : k1 = k
    · rw [show (!((k1, v1).1 == k)) = false by simp [h], if_neg (by simp)]
      simpa using ih
    · rw [show (!((k1, v1).1 == k)) = true by simp [h], if_pos rfl]
      rw [List.lookup_cons, show (k == k1) = false by simp [Ne.symm h]]
      simpa using ih

theorem lookup_map_overwrite {β : Type} (m : List (String × β)) (k : String) (v : β)
    (h : (m.lookup k).isSome) :
    (m.map (fun kv => if kv.1 = k then (k, v) else kv)).lookup k = some v := by
  induction m with
  | nil => simp at h
  | cons kv rest ih =>
    obtain ⟨k1, v1⟩ := kv
    rw [List.map_cons]
    by_cases hk : k1 = k
    · have : (if (k1, v1).1 = k then (k, v) else (k1, v1)) = (k, v) := by simp [hk]
      rw [this, List.lookup_cons, show (k == k) = true by simp]
    · have : (if (k1, v1).1 = k then (k, v) else (k1, v1)) = (k1, v1) := by simp [hk]
      rw [this, List.lookup_cons, show (k == k1) = false by simp [Ne.symm hk]]
      rw [List.lookup_cons, show (k == k1) = false by simp [Ne.symm hk]] at h
      exact ih h

theorem lookup_append_single {β : Type} (m : List (String × β)) (k : String) (v : β)
    (h : m.lookup k = none) :
    (m ++ [(k, v)]).lookup k = some v := by
  induction m with
  | nil => simp [List.lookup_cons]
  | cons kv rest ih =>
    obtain ⟨k1, v1⟩ := kv
    by_cases hk : k = k1
    · rw [List.lookup_cons, show (k == k1) = true by simp [hk]] at h
      cases h
    · rw [List.lookup_cons, show (k == k1) = false by simp [hk]] at h
      rw [List.cons_append, List.lookup_cons, show (k == k1) = false by simp [hk]]
      exact ih h

theorem alookup_aset_self {β : Type} (m : List (String × β)) (k : String) (v : β) :
    alookup (aset m k v) k = some v := by
  unfold alookup aset
  by_cases h : (m.lookup k).isSome
  · simp only [h, if_pos, ite_true]
    exact lookup_map_overwrite m k v h
  · simp only [h, if_neg, ite_false, Bool.false_eq_true]
    exact lookup_append_single m k v (by
      cases hl : m.lookup k with
      | none => rfl
      | some w => rw [hl] at h; simp at h)

theorem list_lookup_aset_self {β : Type} (m : List (String × β)) (k : String) (v : β) :
    List.lookup k (aset m k v) = some v :=
  alookup_aset_self m k v

theorem append_replication_event_epoch (args : List String) (s : Session)
    (reply? : Option String) (db : DB) (now : Int) (g : Globals) :
    (append_replication_event args s reply? db now g).mutation_epoch =
      g.mutation_epoch := by
  unfold append_replication_event
  cases args with
  | nil => rfl
  | cons a rest =>
    dsimp only
    split_ifs <;> rfl

theorem append_replication_event_capture (args : List String) (s : Session)
    (reply? : Option String) (db : DB) (now : Int) (g : Globals) :
    (append_replication_event args s reply? db now g).capture_exec_replication =
      g.capture_exec_replication := by
  unfold append_replication_event
  cases args with
  | nil => rfl
  | cons a rest =>
    dsimp only
    split_ifs <;> rfl

theorem append_replication_event_journal_mono (args : List String) (s : Session)
    (reply? : Option String) (db : DB) (now : Int) (g : Globals) :
    g.replication_events.length ≤
      (append_replication_event args s reply? db now g).replication_events.length := by
  unfold append_replication_event
  cases args with
  | nil => exact le_refl _
  | cons a rest =>
    dsimp only
    split_ifs <;> simp [List.length_append]

theorem foldl_append_replication_event_epoch (events : List (List String))
    (s : Session) (db : DB) (now : Int) (g : Globals) :
    (events.foldl (fun gg e => append_replication_event e s none db now gg)
      g).mutation_epoch = g.mutation_epoch := by
  induction events generalizing g with
  | nil => rfl
  | cons e rest ih => rw [List.foldl_cons, ih, append_replication_event_epoch]

theorem foldl_append_replication_event_capture (events : List (List String))
    (s : Session) (db : DB) (now : Int) (g : Globals) :
    (events.foldl (fun gg e => append_replication_event e s none db now gg)
      g).capture_exec_replication = g.capture_exec_replication := by
  induction events generalizing g with
  | nil => rfl
  | cons e rest ih => rw [List.foldl_cons, ih, append_replication_event_capture]

theorem foldl_append_replication_event_journal_mono (events : List (List String))
    (s : Session) (db : DB) (now : Int) (g : Globals) :
    g.replication_events.length ≤
      (events.foldl (fun gg e => append_replication_event e s none db now gg)
        g).replication_events.length := by
  induction events generalizing g with
  | nil => exact le_refl _
  | cons e rest ih =>
    rw [List.foldl_cons]
    exact le_trans (append_replication_event_journal_mono e s none db now g) (ih _)

theorem foldl_append_replication_event_capture_eq (events : List (List String))
    (s : Session) (db : DB) (now : Int) (g : Globals) (b : Bool)
    (h : g.capture_exec_replication = b) :
    (events.foldl (fun gg e => append_replication_event e s none db now gg)
      g).capture_exec_replication = b :=
  (foldl_append_replication_event_capture events s db now g).trans h

theorem foldl_append_replication_event_journal_mono_from (events : List (List String))
    (s : Session) (db : DB) (now : Int) (g : Globals) (n : Nat)
    (h : n ≤ g.replication_events.length) :
    n ≤ (events.foldl (fun gg e => append_replication_event e s none db now gg)
      g).replication_events.length :=
  le_trans h (foldl_append_replication_event_journal_mono events s db now g)

theorem append_replication_event_grows (args : List String) (s : Session)
    (reply? : Option String) (db : DB) (now : Int) (g : Globals)
    (hcap : g.capture_exec_replication = false)
    (hemit : (replication_rewrite args reply? db now).1 = true)
    (hne : (replication_rewrite args reply? db now).2.isEmpty = false)
    (hargs : args ≠ []) :
    g.replication_events.length + 1 ≤
      (append_replication_event args s reply? db now g).replication_events.length := by
  unfold append_replication_event
  cases args with
  | nil => exact absurd rfl hargs
  | cons a rest =>
    dsimp only
    rw [hemit, hne, hcap]
    simp only [Bool.not_true, Bool.false_or, Bool.false_eq_true, if_false, ite_false]
    split_ifs <;> simp [List.length_append]

theorem is_error_reply_append_head (s t : String) (c : Char) (cs : List Char)
    (h : s.data = c :: cs) : is_error_reply (s ++ t) = decide (c = '-') := by
  unfold is_error_reply
  rw [String.data_append, h]
  rfl

theorem is_error_reply_encode_error (m : String) :
    is_error_reply (encode_error m) = true := by
  unfold encode_error
  rw [is_error_reply_append_head ("-ERR " ++ m) "\r\n" '-' ("ERR ".data ++ m.data)
    (by rw [String.data_append]; rfl)]
  decide

theorem is_error_reply_encode_integer (z : Int) :
    is_error_reply (encode_integer z) = false := by
  unfold encode_integer
  rw [is_error_reply_append_head (":" ++ intToString z) "\r\n" ':' (intToString z).data
    (by rw [String.data_append]; rfl)]
  decide

theorem is_error_reply_append_left (s t : String) (h : is_error_reply s = true) :
    is_error_reply (s ++ t) = true := by
  unfold is_error_reply at h ⊢
  rw [String.data_append]
  cases hd : s.data with
  | nil => rw [hd] at h; exact absurd h (by decide)
  | cons c cs =>
    rw [hd] at h
    rw [List.cons_append]
    exact h

theorem is_error_reply_moved_reply (slot : Nat) (addr : String) :
    is_error_reply (moved_reply slot addr) = true :=
  is_error_reply_append_left _ _ (is_error_reply_append_left _ _
    (is_error_reply_append_left _ _ (is_error_reply_append_left _ _ (by decide))))

theorem is_error_reply_ask_reply (slot : Nat) (addr : String) :
    is_error_reply (ask_reply slot addr) = true :=
  is_error_reply_append_left _ _ (is_error_reply_append_left _ _
    (is_error_reply_append_left _ _ (is_error_reply_append_left _ _ (by decide))))

theorem handle_command_not_busy (t : String → Option CommandSpecM)
    (m : String → Option (List String → Option String)) (ibs : Bool)
    (args : List String) (session : Session) (db : DB) (g : Globals) (now : Int)
    (hbusy : g.script_busy = false)
    (hp : ¬(args.isEmpty = true ∨ args.headD "" = "__empty__" ∨
      args.headD "" = "__parse_error__")) :
    handle_command t m ibs args session db g now =
      handle_command_core t m args (upperStr (args.headD "")) session db g now := by
  unfold handle_command
  rw [if_neg hp]
  dsimp only
  rw [if_neg (by simp [hbusy])]

set_option maxHeartbeats 1000000 in
theorem handle_command_core_epoch_of_error (t : String → Option CommandSpecM)
    (m : String → Option (List String → Option String)) (args : List String)
    (cmd : String) (session : Session) (db : DB) (g : Globals) (now : Int)
    (hnr : ∀ spec : CommandSpecM, t cmd = some spec →
      ∀ (s : Session) (d : DB), (spec.handler args s d now).epoch_bumps = 0)
    (h : is_error_reply (handle_command_core t m args cmd session db g now).reply
      = true) :
    (handle_command_core t m args cmd session db g now).g.mutation_epoch =
      g.mutation_epoch := by
  unfold handle_command_core at h ⊢
  by_cases hq : session.in_multi = true ∧ cmd ≠ "EXEC" ∧ cmd ≠ "DISCARD" ∧
      cmd ≠ "MULTI" ∧ cmd ≠ "QUIT"
  · rw [if_pos hq]
    split_ifs
    · rfl
    · rfl
    · cases t cmd with
      | none => rfl
      | some spec =>
        dsimp only
        split_ifs <;> rfl
  · rw [if_neg hq] at h ⊢
    cases htc : t cmd with
    | none =>
      cases m cmd <;> rfl
    | some spec =>
      rw [htc] at h
      dsimp only at h ⊢
      by_cases c1 : !arity_ok args.length spec.arity
      · rw [if_pos c1]
      rw [if_neg c1] at h ⊢
      by_cases c2 : spec.is_write ∧ g.config_maxmemory = 1 ∧ ¬g.script_allow_oom ∧
          cmd ≠ "CONFIG" ∧ cmd ≠ "EVAL" ∧ cmd ≠ "EVALSHA" ∧ cmd ≠ "FLUSHALL" ∧
          cmd ≠ "FLUSHDB"
      · rw [if_pos c2]
      rw [if_neg c2] at h ⊢
      by_cases c3 : spec.is_write ∧ g.config_min_replicas_to_write > 0 ∧
          cmd ≠ "EVAL" ∧ cmd ≠ "EVALSHA" ∧ cmd ≠ "CONFIG" ∧ cmd ≠ "REPLICAOF" ∧
          cmd ≠ "SLAVEOF"
      · rw [if_pos c3]
      rw [if_neg c3] at h ⊢
      by_cases c4 : ¬spec.is_write ∧ g.replication_role = "slave" ∧
          ¬g.config_replica_serve_stale_data ∧ g.replica_stale ∧
          cmd ≠ "REPLICAOF" ∧ cmd ≠ "SLAVEOF" ∧ cmd ≠ "INFO" ∧ cmd ≠ "MULTI" ∧
          cmd ≠ "EXEC" ∧ cmd ≠ "DISCARD" ∧ cmd ≠ "COMMAND" ∧ cmd ≠ "CONFIG"
      · rw [if_pos c4]
      rw [if_neg c4] at h ⊢
      by_cases c5 : spec.is_write ∧ g.replication_role = "slave" ∧ ¬g.executing_exec ∧
          ¬g.loading_replication ∧ cmd ≠ "REPLICAOF" ∧ cmd ≠ "SLAVEOF"
      · rw [if_pos c5]
      rw [if_neg c5] at h ⊢
      by_cases c6 : (spec.first_key > 0 ∧ spec.first_key < (args.length : Int)) ∧
          g.slot_route (args.getD spec.first_key.toNat "") = SlotRoute.moved
      · rw [if_pos c6]
      rw [if_neg c6] at h ⊢
      by_cases c7 : (spec.first_key > 0 ∧ spec.first_key < (args.length : Int)) ∧
          g.slot_route (args.getD spec.first_key.toNat "") = SlotRoute.ask ∧
          ¬session.asking
      · rw [if_pos c7]
      rw [if_neg c7] at h ⊢
      split_ifs at h ⊢
      all_goals first
        | ((try dsimp only at h ⊢); exact absurd h (And.right (by assumption)))
        | ((try dsimp only at h ⊢); rw [foldl_append_replication_event_epoch];
            (try dsimp only); rw [hnr spec htc]; (try omega); done)

set_option maxHeartbeats 1000000 in
theorem handle_command_core_epoch_of_write_success (t : String → Option CommandSpecM)
    (m : String → Option (List String → Option String)) (args : List String)
    (cmd : String) (session : Session) (db : DB) (g : Globals) (now : Int)
    (spec : CommandSpecM) (hin : session.in_multi = false)
    (ht : t cmd = some spec) (hw : spec.is_write = true)
    (hnr : ∀ (s : Session) (d : DB), (spec.handler args s d now).epoch_bumps = 0)
    (hsucc : is_error_reply
      (handle_command_core t m args cmd session db g now).reply = false) :
    (handle_command_core t m args cmd session db g now).g.mutation_epoch =
      g.mutation_epoch + 1 := by
  unfold handle_command_core at hsucc ⊢
  rw [if_neg (by simp [hin]), ht] at hsucc ⊢
  dsimp only at hsucc ⊢
  by_cases c1 : !arity_ok args.length spec.arity
  · rw [if_pos c1] at hsucc
    dsimp only at hsucc
    rw [is_error_reply_encode_error] at hsucc
    exact absurd hsucc (by decide)
  rw [if_neg c1] at hsucc ⊢
  by_cases c2 : spec.is_write ∧ g.config_maxmemory = 1 ∧ ¬g.script_allow_oom ∧
      cmd ≠ "CONFIG" ∧ cmd ≠ "EVAL" ∧ cmd ≠ "EVALSHA" ∧ cmd ≠ "FLUSHALL" ∧
      cmd ≠ "FLUSHDB"
  · rw [if_pos c2] at hsucc
    dsimp only at hsucc
    exact absurd hsucc (by decide)
  rw [if_neg c2] at hsucc ⊢
  by_cases c3 : spec.is_write ∧ g.config_min_replicas_to_write > 0 ∧
      cmd ≠ "EVAL" ∧ cmd ≠ "EVALSHA" ∧ cmd ≠ "CONFIG" ∧ cmd ≠ "REPLICAOF" ∧
      cmd ≠ "SLAVEOF"
  · rw [if_pos c3] at hsucc
    dsimp only at hsucc
    exact absurd hsucc (by decide)
  rw [if_neg c3] at hsucc ⊢
  by_cases c4 : ¬spec.is_write ∧ g.replication_role = "slave" ∧
      ¬g.config_replica_serve_stale_data ∧ g.replica_stale ∧
      cmd ≠ "REPLICAOF" ∧ cmd ≠ "SLAVEOF" ∧ cmd ≠ "INFO" ∧ cmd ≠ "MULTI" ∧
      cmd ≠ "EXEC" ∧ cmd ≠ "DISCARD" ∧ cmd ≠ "COMMAND" ∧ cmd ≠ "CONFIG"
  · rw [if_pos c4] at hsucc
    dsimp only at hsucc
    exact absurd hsucc (by decide)
  rw [if_neg c4] at hsucc ⊢
  by_cases c5 : spec.is_write ∧ g.replication_role = "slave" ∧ ¬g.executing_exec ∧
      ¬g.loading_replication ∧ cmd ≠ "REPLICAOF" ∧ cmd ≠ "SLAVEOF"
  · rw [if_pos c5] at hsucc
    dsimp only at hsucc
    exact absurd hsucc (by decide)
  rw [if_neg c5] at hsucc ⊢
  by_cases c6 : (spec.first_key > 0 ∧ spec.first_key < (args.length : Int)) ∧
      g.slot_route (args.getD spec.first_key.toNat "") = SlotRoute.moved
  · rw [if_pos c6] at hsucc
    dsimp only at hsucc
    rw [is_error_reply_moved_reply] at hsucc
    exact absurd hsucc (by decide)
  rw [if_neg c6] at hsucc ⊢
  by_cases c7 : (spec.first_key > 0 ∧ spec.first_key < (args.length : Int)) ∧
      g.slot_route (args.getD spec.first_key.toNat "") = SlotRoute.ask ∧
      ¬session.asking
  · rw [if_pos c7] at hsucc
    dsimp only at hsucc
    rw [is_error_reply_ask_reply] at hsucc
    exact absurd hsucc (by decide)
  rw [if_neg c7] at hsucc ⊢
  split_ifs at hsucc ⊢
  all_goals first
    | ((try dsimp only at hsucc ⊢); rw [append_replication_event_epoch]; dsimp only;
        rw [foldl_append_replication_event_epoch]; (try dsimp only); rw [hnr];
        (try omega); done)
    | ((try dsimp only at hsucc ⊢);
        have hne := (Bool.not_eq_true _).mpr hsucc;
        exact absurd (And.intro hw hne) (by assumption))

set_option maxHeartbeats 1000000 in
theorem handle_command_core_journal_of_write_success (t : String → Option CommandSpecM)
    (m : String → Option (List String → Option String)) (args : List String)
    (cmd : String) (session : Session) (db : DB) (g : Globals) (now : Int)
    (spec : CommandSpecM) (hin : session.in_multi = false)
    (ht : t cmd = some spec) (hw : spec.is_write = true)
    (hcap : g.capture_exec_replication = false)
    (hargs : args ≠ [])
    (hsucc : is_error_reply
      (handle_command_core t m args cmd session db g now).reply = false)
    (hsup : journal_suppressed
      (handle_command_core t m args cmd session db g now).db now args
      (handle_command_core t m args cmd session db g now).reply = false) :
    g.replication_events.length + 1 ≤
      (handle_command_core t m args cmd session db g now).g.replication_events.length := by
  unfold handle_command_core at hsucc hsup ⊢
  rw [if_neg (by simp [hin]), ht] at hsucc hsup ⊢
  dsimp only at hsucc hsup ⊢
  by_cases c1 : !arity_ok args.length spec.arity
  · rw [if_pos c1] at hsucc
    dsimp only at hsucc
    rw [is_error_reply_encode_error] at hsucc
    exact absurd hsucc (by decide)
  rw [if_neg c1] at hsucc hsup ⊢
  by_cases c2 : spec.is_write ∧ g.config_maxmemory = 1 ∧ ¬g.script_allow_oom ∧
      cmd ≠ "CONFIG" ∧ cmd ≠ "EVAL" ∧ cmd ≠ "EVALSHA" ∧ cmd ≠ "FLUSHALL" ∧
      cmd ≠ "FLUSHDB"
  · rw [if_pos c2] at hsucc
    dsimp only at hsucc
    exact absurd hsucc (by decide)
  rw [if_neg c2] at hsucc hsup ⊢
  by_cases c3 : spec.is_write ∧ g.config_min_replicas_to_write > 0 ∧
      cmd ≠ "EVAL" ∧ cmd ≠ "EVALSHA" ∧ cmd ≠ "CONFIG" ∧ cmd ≠ "REPLICAOF" ∧
      cmd ≠ "SLAVEOF"
  · rw [if_pos c3] at hsucc
    dsimp only at hsucc
    exact absurd hsucc (by decide)
  rw [if_neg c3] at hsucc hsup ⊢
  by_cases c4 : ¬spec.is_write ∧ g.replication_role = "slave" ∧
      ¬g.config_replica_serve_stale_data ∧ g.replica_stale ∧
      cmd ≠ "REPLICAOF" ∧ cmd ≠ "SLAVEOF" ∧ cmd ≠ "INFO" ∧ cmd ≠ "MULTI" ∧
      cmd ≠ "EXEC" ∧ cmd ≠ "DISCARD" ∧ cmd ≠ "COMMAND" ∧ cmd ≠ "CONFIG"
  · rw [if_pos c4] at hsucc
    dsimp only at hsucc
    exact absurd hsucc (by decide)
  rw [if_neg c4] at hsucc hsup ⊢
  by_cases c5 : spec.is_write ∧ g.replication_role = "slave" ∧ ¬g.executing_exec ∧
      ¬g.loading_replication ∧ cmd ≠ "REPLICAOF" ∧ cmd ≠ "SLAVEOF"
  · rw [if_pos c5] at hsucc
    dsimp only at hsucc
    exact absurd hsucc (by decide)
  rw [if_neg c5] at hsucc hsup ⊢
  by_cases c6 : (spec.first_key > 0 ∧ spec.first_key < (args.length : Int)) ∧
      g.slot_route (args.getD spec.first_key.toNat "") = SlotRoute.moved
  · rw [if_pos c6] at hsucc
    dsimp only at hsucc
    rw [is_error_reply_moved_reply] at hsucc
    exact absurd hsucc (by decide)
  rw [if_neg c6] at hsucc hsup ⊢
  by_cases c7 : (spec.first_key > 0 ∧ spec.first_key < (args.length : Int)) ∧
      g.slot_route (args.getD spec.first_key.toNat "") = SlotRoute.ask ∧
      ¬session.asking
  · rw [if_pos c7] at hsucc
    dsimp only at hsucc
    rw [is_error_reply_ask_reply] at hsucc
    exact absurd hsucc (by decide)
  rw [if_neg c7] at hsucc hsup ⊢
  split_ifs at hsucc hsup ⊢
  all_goals first
    | ((try dsimp only at hsup); (try dsimp only);
        refine le_trans ?_ (append_replication_event_grows _ _ _ _ _ _ ?_ ?_ ?_ hargs) <;>
          first
            | exact foldl_append_replication_event_capture_eq _ _ _ _ _ _ hcap
            | (rw [replication_rewrite_emit_eq, hsup]; decide)
            | exact replication_rewrite_out_ne _ _ _ _ hargs
            | (refine Nat.add_le_add_right
                (foldl_append_replication_event_journal_mono_from _ _ _ _ _ _ ?_) 1;
                exact Nat.le_refl _))
    | ((try dsimp only at hsucc ⊢);
        first
          | (have hne := (Bool.not_eq_true _).mpr hsucc;
             exact absurd (And.intro hw hne) (by assumption))
          | exact absurd (And.intro hw hsucc) (by assumption))

theorem natToString_ne_nil (n : Nat) : (natToString n).data ≠ [] := by
  obtain ⟨c, cs, hc, -, -⟩ := natToStringAux_head_digit (n + 1) n (by omega)
  unfold natToString
  intro h
  rw [show (String.mk (natToStringAux (n + 1) n)).data = natToStringAux (n + 1) n from rfl,
    hc] at h
  cases h

theorem encode_array_ne_null_array (items : List String) :
    encode_array items ≠ encode_null_array := by
  intro h
  obtain ⟨c, cs, hc, h1, _⟩ :=
    natToStringAux_head_digit (items.length + 1) items.length (by omega)
  have hd := congrArg String.data h
  simp only [encode_array, encode_null_array, String.data_append, natToString] at hd
  rw [hc] at hd
  simp only [List.cons_append, List.nil_append, List.append_assoc] at hd
  injection hd with h1' hd2
  injection hd2 with hc2 _
  subst hc2
  have hv : ('-').toNat = 45 := rfl
  omega

/-! ### Claims -/

/-- C3 counterexample: with `k` holding a List whose expiry (100 ms) has
passed at `now = 200`, GET observes the expired entry through the no-expire
wrongtype probe and replies WRONGTYPE instead of treating the key as
absent, and the expired entry is still present in the store afterwards. -/
theorem c3_counterexample :
    (get_handler ["GET", "k"] {}
        [("k", { type := .list, list_value := ["a"], expire_at_ms := some 100 })]
        200).reply = wrongtype_error_reply ∧
    dbFind (get_handler ["GET", "k"] {}
        [("k", { type := .list, list_value := ["a"], expire_at_ms := some 100 })]
        200).db "k" =
      some { type := .list, list_value := ["a"], expire_at_ms := some 100 } :=
  ⟨rfl, rfl⟩

/-- C3 (amended): every keyspace accessor that applies lazy expiration
treats a key whose `expire_at_ms` has passed as absent and removes its
entry before reading: `type_of` reports "none" and `get` reports no value,
and in both cases the entry is gone from the resulting store.  (Amendment
forced by the counterexample: GET's no-expire wrongtype probe
`is_wrongtype_for_string_noexpire` is excepted — it observes the expired
entry's type before the removal.) -/
theorem c3_lazy_expire_treats_absent (db : DB) (now : Int) (k : String) (e : Entry)
    (t : Int) (hfind : dbFind db k = some e) (hexp : e.expire_at_ms = some t)
    (hle : t ≤ now) :
    (type_of db now k).1 = "none" ∧ dbFind (type_of db now k).2 k = none ∧
    (get db now k).1 = none ∧ dbFind (get db now k).2 k = none := by
  have hfind' : alookup db k = some e := hfind
  have hnot : ¬(now < t) := by omega
  refine ⟨?_, ?_, ?_, ?_⟩ <;>
    simp [type_of, get, expire_if_needed, hfind', hexp, hnot, hle,
      dbFind, dbErase, alookup_aerase_self]

/-- Witness for C3 at a concrete input. -/
theorem c3_witness :
    (type_of [("k", { type := .list, expire_at_ms := some 100 })] 200 "k").1 = "none" ∧
    dbFind (type_of [("k", { type := .list, expire_at_ms := some 100 })] 200 "k").2 "k" =
      none ∧
    (get [("k", { type := .list, expire_at_ms := some 100 })] 200 "k").1 = none ∧
    dbFind (get [("k", { type := .list, expire_at_ms := some 100 })] 200 "k").2 "k" =
      none :=
  c3_lazy_expire_treats_absent _ 200 "k" _ 100 rfl rfl (by decide)

/-- C5: the spec requires `INCRBY` at i64 overflow to reply
"-ERR increment or decrement would overflow", but neither the INCRBY
handler nor `DataStore::incrby` checks for overflow.  At the failing input
(key "x" holding "9223372036854775807", increment 1) the C++ `base + by`
overflows `long long` — undefined behaviour, wrapping in the compiled
code — and the command succeeds with the wrapped value, which it also
stores. -/
theorem c5_incrby_overflow_wraps :
    (incrby_handler ["INCRBY", "x", "1"] {}
        [("x", { type := .string, value := "9223372036854775807" })] 0).reply =
      ":-9223372036854775808\r\n" ∧
    is_error_reply ":-9223372036854775808\r\n" = false ∧
    (dbFind (incrby_handler ["INCRBY", "x", "1"] {}
        [("x", { type := .string, value := "9223372036854775807" })] 0).db "x").map
      (fun e => e.value) = some "-9223372036854775808" :=
  ⟨rfl, rfl, rfl⟩

/-- C6 counterexample: `EXPIRE k -1` (negative, not overflow-inducing) is
accepted: it replies `:1` — not an error — and modifies the key, setting
its absolute expiry into the past (`now - 1000`). -/
theorem c6_counterexample :
    (expire_handler ["EXPIRE", "k", "-1"] {}
        [("k", { type := .string, value := "v" })] 1000).reply = ":1\r\n" ∧
    is_error_reply ":1\r\n" = false ∧
    (expire_handler ["EXPIRE", "k", "-1"] {}
        [("k", { type := .string, value := "v" })] 1000).db =
      [("k", { type := .string, value := "v", expire_at_ms := some 0 })] :=
  ⟨rfl, rfl, rfl⟩

/-- C6 (amended): `EXPIRE` with an overflow-inducing value — seconds beyond
`INT64_MAX/1000` in magnitude, or a delta that would overflow `now + delta`
— returns an error reply and leaves the store unchanged.  (Amendment forced
by the counterexample: a merely negative value is accepted, replies `:1`,
and sets the expiry in the past.) -/
theorem c6_expire_overflow_is_error (args : List String) (s : Session) (db : DB)
    (now sec : Int) (hsec : parse_i64 (args.getD 2 "") = some sec)
    (hover : sec > 9223372036854775 ∨ sec < -9223372036854775 ∨
      (sec * 1000 > 0 ∧ now > int64Max - sec * 1000) ∨
      (sec * 1000 < 0 ∧ now < int64Min - sec * 1000)) :
    is_error_reply (expire_handler args s db now).reply = true ∧
    (expire_handler args s db now).db = db := by
  simp only [expire_handler, hsec]
  by_cases h1 : sec > 9223372036854775 ∨ sec < -9223372036854775
  · rw [if_pos h1]
    exact ⟨is_error_reply_encode_error _, rfl⟩
  · rw [if_neg h1]
    have h2 : sec * 1000 > 0 ∧ now > int64Max - sec * 1000 ∨
        sec * 1000 < 0 ∧ now < int64Min - sec * 1000 := by tauto
    rw [if_pos h2]
    exact ⟨is_error_reply_encode_error _, rfl⟩

/-- Witness for C6 at a concrete input. -/
theorem c6_witness :
    is_error_reply (expire_handler ["EXPIRE", "k", "9999999999999999"] {}
        [("k", { type := .string, value := "v" })] 1000).reply = true ∧
    (expire_handler ["EXPIRE", "k", "9999999999999999"] {}
        [("k", { type := .string, value := "v" })] 1000).db =
      [("k", { type := .string, value := "v" })] :=
  c6_expire_overflow_is_error _ _ _ 1000 9999999999999999 rfl (Or.inl (by decide))

/-- C7: stream-id monotonicity breaks at the u64 sequence wrap.  With the
stream's top id at `99999999999999-18446744073709551615` (reachable by one
explicit XADD) and the clock at `now = 1760000000000 < 99999999999999`,
`XADD s *` assigns `99999999999999-0`, which is smaller than the top id —
the very id the explicit-id path of the same function would reject as
"equal or smaller than the target stream top item" (third conjunct). -/
theorem c7_xadd_wrap_breaks_monotonicity :
    (xadd [("s", { type := .stream, stream_entries := [("99999999999999-18446744073709551615", [("f", "v")])], stream_last_ms := 99999999999999, stream_last_seq := 18446744073709551615 })]
      1760000000000 "s" "*" [("f", "v")]).1 = some "99999999999999-0" ∧
    stream_id_gt "99999999999999-0" "99999999999999-18446744073709551615" = false ∧
    (xadd [("s", { type := .stream, stream_entries := [("99999999999999-18446744073709551615", [("f", "v")])], stream_last_ms := 99999999999999, stream_last_seq := 18446744073709551615 })]
      1760000000000 "s" "99999999999999-0" [("f", "v")]).2.2.1 =
      "The ID specified in XADD is equal or smaller than the target stream top item" :=
  ⟨rfl, rfl, rfl⟩

/-- C9 counterexample: against a missing key none of the three
consumer-group operations returns a NOGROUP error: `xack` returns 0 acked
with no error, `xpending_summary` returns an empty summary with no error,
and `xreadgroup` silently skips the stream. -/
theorem c9_counterexample :
    xack [] 0 "s" "g" ["1-1"] = (0, false, "", []) ∧
    xpending_summary [] 0 "s" "g" = (["0", "", "", ""], false, "", []) ∧
    xreadgroup [] 0 "g" "c" [("s", ">")] = ([], false, "", []) :=
  ⟨rfl, rfl, rfl⟩

/-- C9 (amended): `xack`, `xpending_summary` and `xreadgroup` report the
`NOGROUP` error exactly when the (lazily expired) key holds a stream whose
named group is missing.  In particular a missing key yields no error (0
acked, the empty pending summary, the stream silently skipped), a key of
another type sets the wrongtype flag with no error, and an existing group
never produces an error. -/
theorem c9_nogroup_iff_missing_group (db : DB) (now : Int) (k grp consumer idreq : String)
    (ids : List String) :
    ((xack db now k grp ids).2.2.1 = "NOGROUP No such key or consumer group" ↔
      (∃ e : Entry, dbFind (expire_if_needed db now k).2 k = some e ∧
        e.type = ValueType.stream ∧ alookup e.stream_groups grp = none)) ∧
    ((xpending_summary db now k grp).2.2.1 = "NOGROUP No such key or consumer group" ↔
      (∃ e : Entry, dbFind (expire_if_needed db now k).2 k = some e ∧
        e.type = ValueType.stream ∧ alookup e.stream_groups grp = none)) ∧
    ((xreadgroup db now grp consumer [(k, idreq)]).2.2.1 =
        "NOGROUP No such key or consumer group" ↔
      (∃ e : Entry, dbFind (expire_if_needed db now k).2 k = some e ∧
        e.type = ValueType.stream ∧ alookup e.stream_groups grp = none)) ∧
    (dbFind (expire_if_needed db now k).2 k = none →
      xack db now k grp ids = (0, false, "", (expire_if_needed db now k).2) ∧
      xpending_summary db now k grp =
        (["0", "", "", ""], false, "", (expire_if_needed db now k).2) ∧
      xreadgroup db now grp consumer [(k, idreq)] =
        ([], false, "", (expire_if_needed db now k).2)) := by
  have hng : ("" : String) ≠ "NOGROUP No such key or consumer group" := by decide
  rcases hf : dbFind (expire_if_needed db now k).2 k with _ | e
  · have hnex : ¬∃ e : Entry, (none : Option Entry) = some e ∧
        e.type = ValueType.stream ∧ alookup e.stream_groups grp = none := by
      rintro ⟨e, he, -, -⟩
      exact Option.noConfusion he
    have h1 : xack db now k grp ids = (0, false, "", (expire_if_needed db now k).2) := by
      simp [xack, hf]
    have h2 : xpending_summary db now k grp =
        (["0", "", "", ""], false, "", (expire_if_needed db now k).2) := by
      simp [xpending_summary, hf]
    have h3 : xreadgroup db now grp consumer [(k, idreq)] =
        ([], false, "", (expire_if_needed db now k).2) := by
      simp [xreadgroup, xreadgroupGo, hf]
    refine ⟨?_, ?_, ?_, fun _ => ⟨h1, h2, h3⟩⟩
    · rw [h1]
      exact iff_of_false hng hnex
    · rw [h2]
      exact iff_of_false hng hnex
    · rw [h3]
      exact iff_of_false hng hnex
  · by_cases hty : e.type = ValueType.stream
    · rcases hg : alookup e.stream_groups grp with _ | gr
      · have hex : ∃ e2 : Entry, some e = some e2 ∧
            e2.type = ValueType.stream ∧ alookup e2.stream_groups grp = none :=
          ⟨e, rfl, hty, hg⟩
        have h1 : (xack db now k grp ids).2.2.1 =
            "NOGROUP No such key or consumer group" := by
          simp [xack, hf, hty, hg]
        have h2 : (xpending_summary db now k grp).2.2.1 =
            "NOGROUP No such key or consumer group" := by
          simp [xpending_summary, hf, hty, hg]
        have h3 : (xreadgroup db now grp consumer [(k, idreq)]).2.2.1 =
            "NOGROUP No such key or consumer group" := by
          simp [xreadgroup, xreadgroupGo, hf, hty, hg]
        refine ⟨iff_of_true h1 hex, iff_of_true h2 hex, iff_of_true h3 hex, ?_⟩
        intro hnone
        exact Option.noConfusion hnone
      · have hnex : ¬∃ e2 : Entry, some e = some e2 ∧
            e2.type = ValueType.stream ∧ alookup e2.stream_groups grp = none := by
          rintro ⟨e2, he2, -, hg2⟩
          obtain rfl := Option.some.inj he2
          rw [hg] at hg2
          exact Option.noConfusion hg2
        have h1 : (xack db now k grp ids).2.2.1 = "" := by
          simp [xack, hf, hty, hg]
        have h2 : (xpending_summary db now k grp).2.2.1 = "" := by
          simp [xpending_summary, hf, hty, hg] <;> split_ifs <;> rfl
        have h3 : (xreadgroup db now grp consumer [(k, idreq)]).2.2.1 = "" := by
          by_cases hq : idreq = ">"
          · rcases hfind : e.stream_entries.find?
                (fun ent => stream_id_gt ent.1 gr.last_delivered_id) with _ | ent <;>
              simp [xreadgroup, xreadgroupGo, hf, hty, hg, hq, hfind]
          · simp [xreadgroup, xreadgroupGo, hf, hty, hg, hq]
        refine ⟨?_, ?_, ?_, ?_⟩
        · rw [h1]
          exact iff_of_false hng hnex
        · rw [h2]
          exact iff_of_false hng hnex
        · rw [h3]
          exact iff_of_false hng hnex
        · intro hnone
          exact Option.noConfusion hnone
    · have hnex : ¬∃ e2 : Entry, some e = some e2 ∧
          e2.type = ValueType.stream ∧ alookup e2.stream_groups grp = none := by
        rintro ⟨e2, he2, hst, -⟩
        obtain rfl := Option.some.inj he2
        exact hty hst
      have h1 : (xack db now k grp ids).2.2.1 = "" := by
        simp [xack, hf, hty]
      have h2 : (xpending_summary db now k grp).2.2.1 = "" := by
        simp [xpending_summary, hf, hty]
      have h3 : (xreadgroup db now grp consumer [(k, idreq)]).2.2.1 = "" := by
        simp [xreadgroup, xreadgroupGo, hf, hty]
      refine ⟨?_, ?_, ?_, ?_⟩
      · rw [h1]
        exact iff_of_false hng hnex
      · rw [h2]
        exact iff_of_false hng hnex
      · rw [h3]
        exact iff_of_false hng hnex
      · intro hnone
        exact Option.noConfusion hnone

/-- Witness for C9 at concrete inputs: a missing key acks 0 with no error,
and a stream key without the named group draws `NOGROUP`. -/
theorem c9_witness :
    xack [] 5 "nokey" "g" [] = (0, false, "", []) ∧
    (xack [("s", { type := .stream })] 5 "s" "g" []).2.2.1 =
      "NOGROUP No such key or consumer group" := by
  refine ⟨((c9_nogroup_iff_missing_group [] 5 "nokey" "g" "c" ">" []).2.2.2 rfl).1, ?_⟩
  exact (c9_nogroup_iff_missing_group [("s", { type := .stream })] 5 "s" "g" "c" ">"
    []).1.mpr ⟨{ type := .stream }, rfl, rfl, rfl⟩

/-- C10: a successful `incrby` or `incrbyfloat` on a live string key that
carries an expiry stores the new value through `set` with no expiry and
`keep_ttl = false`, so the resulting entry's `expire_at_ms` is cleared: the
key becomes persistent instead of keeping its TTL. -/
theorem c10_incr_clears_ttl (db : DB) (now : Int) (k : String) (e : Entry)
    (t base : Int) (fbase : DVal) (incr : Int) (fincr : DVal)
    (hfind : dbFind db k = some e) (htype : e.type = ValueType.string)
    (hexp : e.expire_at_ms = some t) (hlive : ¬(t ≤ now))
    (hparse : stoll e.value = some base) (hparsef : stold e.value = some fbase) :
    (incrby db now k incr).2.1 = true ∧
    dbFind (incrby db now k incr).2.2.2 k =
      some { e with value := intToString (wrap_ll (base + incr)),
                    string_force_raw := false, expire_at_ms := none } ∧
    (incrbyfloat db now k fincr).2.1 = true ∧
    dbFind (incrbyfloat db now k fincr).2.2.2 k =
      some { e with value := dvalToString (dadd fbase fincr),
                    string_force_raw := false, expire_at_ms := none } := by
  have hfind' : alookup db k = some e := hfind
  have hyes : now < t := by omega
  have hset : ∀ v : String,
      (set db now k v false false none false).2 =
        dbSet db k { e with type := ValueType.string, value := v,
                            string_force_raw := false, expire_at_ms := none } := by
    intro v
    simp [set, expire_if_needed, dbFind, hfind', hexp, hyes, htype]
  refine ⟨?_, ?_, ?_, ?_⟩ <;>
    simp [incrby, incrbyfloat, get, hfind', hexp, hlive, hparse, hparsef, hset,
      dbFind, dbSet, alookup_aset_self, htype]

/-- Witness for C10 at a concrete input. -/
theorem c10_witness :
    (incrby [("k", { type := .string, value := "41", expire_at_ms := some 5000 })]
      1000 "k" 1).2.1 = true ∧
    dbFind (incrby [("k", { type := .string, value := "41", expire_at_ms := some 5000 })]
      1000 "k" 1).2.2.2 "k" =
      some { type := .string, value := intToString (wrap_ll (41 + 1)),
             string_force_raw := false, expire_at_ms := none } ∧
    (incrbyfloat [("k", { type := .string, value := "41", expire_at_ms := some 5000 })]
      1000 "k" (.num ⟨1, 1⟩)).2.1 = true ∧
    dbFind (incrbyfloat [("k", { type := .string, value := "41", expire_at_ms := some 5000 })]
      1000 "k" (.num ⟨1, 1⟩)).2.2.2 "k" =
      some { type := .string, value := dvalToString (dadd (.num ⟨41, 1⟩) (.num ⟨1, 1⟩)),
             string_force_raw := false, expire_at_ms := none } :=
  c10_incr_clears_ttl [("k", { type := .string, value := "41", expire_at_ms := some 5000 })]
    1000 "k" { type := .string, value := "41", expire_at_ms := some 5000 }
    5000 41 (.num ⟨41, 1⟩) 1 (.num ⟨1, 1⟩) rfl rfl rfl (by decide) rfl rfl

/-- C8 counterexample: `ZADD k NX XX 1 m` — NX and XX together — is not
rejected: the handler replies `:0`, not an error. -/
theorem c8_counterexample :
    (zadd_handler ["ZADD", "k", "NX", "XX", "1", "m"] {} [] 0).reply = ":0\r\n" ∧
    is_error_reply ":0\r\n" = false :=
  ⟨rfl, rfl⟩

/-- C8 (amended): the INCR-requires-one-pair check is enforced (first
conjunct: two pairs after INCR draw the dedicated error), but the mutual
exclusions are not: NX with XX is accepted, replies `:0` and never adds the
member (second conjunct at the handler, third at `zadd_one` in full
generality: with both NX and XX every call leaves the member map
untouched); GT with LT is likewise accepted and replies `:1` on a fresh
key, adding the member (fourth conjunct). -/
theorem c8_zadd_option_checks (db : DB) (now : Int) (k s m s2 m2 : String)
    (v : DVal) (sess : Session)
    (hplain : upperStr s ∉ (["NX", "XX", "GT", "LT", "CH", "INCR"] : List String))
    (hmiss : dbFind db k = none) (hv : parse_f64 s = some v) :
    (zadd_handler ["ZADD", k, "INCR", s, m, s2, m2] sess db now).reply =
      encode_error "INCR option supports a single increment-element pair" ∧
    ((zadd_handler ["ZADD", k, "NX", "XX", s, m] sess db now).reply = encode_integer 0 ∧
      (match dbFind (zadd_handler ["ZADD", k, "NX", "XX", s, m] sess db now).db k with
       | some e => alookup e.zset_value m
       | none => none) = none) ∧
    (∀ (db2 : DB) (now2 : Int) (k2 sc2 m3 : String) (v2 : DVal) (gt lt incr : Bool),
      sc2 = sc2 →
      (zadd_one db2 now2 k2 v2 m3 true true gt lt incr).1.added = false ∧
      (zadd_one db2 now2 k2 v2 m3 true true gt lt incr).1.changed = false ∧
      (match dbFind (zadd_one db2 now2 k2 v2 m3 true true gt lt incr).2 k2 with
       | some e => alookup e.zset_value m3
       | none => none) =
      (match dbFind (expire_if_needed db2 now2 k2).2 k2 with
       | some e => alookup e.zset_value m3
       | none => none)) ∧
    (zadd_handler ["ZADD", k, "GT", "LT", s, m] sess db now).reply = encode_integer 1 := by
  simp only [List.mem_cons, List.mem_singleton, not_or] at hplain
  obtain ⟨hn1, hn2, hn3, hn4, hn5, hn6, -⟩ := hplain
  have e1 : upperStr "INCR" = "INCR" := rfl
  have e2 : upperStr "NX" = "NX" := rfl
  have e3 : upperStr "XX" = "XX" := rfl
  have e4 : upperStr "GT" = "GT" := rfl
  have e5 : upperStr "LT" = "LT" := rfl
  have hmiss' : List.lookup k db = none := hmiss
  refine ⟨?_, ⟨?_, ?_⟩, ?_, ?_⟩
  · simp [zadd_handler, zaddOptsGo, e1, hn1, hn2, hn3, hn4, hn5, hn6]
  · simp [zadd_handler, zaddOptsGo, zaddPairsGo, zadd_one, expire_if_needed,
      is_wrongtype_for_zset, e2, e3, hn1, hn2, hn3, hn4, hn5, hn6, hmiss', hv,
      dbFind, dbSet, alookup, list_lookup_aset_self]
  · simp [zadd_handler, zaddOptsGo, zaddPairsGo, zadd_one, expire_if_needed,
      is_wrongtype_for_zset, e2, e3, hn1, hn2, hn3, hn4, hn5, hn6, hmiss', hv,
      dbFind, dbSet, alookup, list_lookup_aset_self]
  · intro db2 now2 k2 sc2 m3 v2 gt lt incr _
    unfold zadd_one
    rcases hfind : dbFind (expire_if_needed db2 now2 k2).2 k2 with _ | e0
    · have hfind2 : List.lookup k2 (expire_if_needed db2 now2 k2).2 = none := hfind
      simp [hfind2, dbFind, dbSet, alookup, list_lookup_aset_self]
    · have hfind2 : List.lookup k2 (expire_if_needed db2 now2 k2).2 = some e0 := hfind
      have hz : (ValueType.zset != ValueType.zset) = false := rfl
      by_cases ht : e0.type = ValueType.zset
      · rcases hmem : List.lookup m3 e0.zset_value with _ | w
        · simp [hfind2, ht, hmem, hz, dbFind, alookup]
        · simp [hfind2, ht, hmem, hz, dbFind, alookup]
      · have htb : (e0.type != ValueType.zset) = true := by
          simp only [bne_iff_ne, ne_eq]
          exact ht
        simp [hfind2, htb, dbFind, alookup]
  · simp [zadd_handler, zaddOptsGo, zaddPairsGo, zadd_one, expire_if_needed,
      is_wrongtype_for_zset, e4, e5, hn1, hn2, hn3, hn4, hn5, hn6, hmiss', hv,
      dbFind, dbSet, alookup, list_lookup_aset_self]

/-- EXEC with a clean transaction and a changed watched digest: the abort
branch. -/
theorem exec_handler_changed_eq (table : String → Option CommandSpecM)
    (digestNow : String → Option String)
    (runQueued : Session → DB → Globals → List (List String) →
      List String × Session × DB × Globals)
    (session : Session) (db : DB) (g : Globals)
    (hin : session.in_multi = true) (hdirty : session.multi_dirty = false)
    (hne : session.watched_digests.isEmpty = false)
    (hany : (session.watched_digests.any fun kd => decide (digestNow kd.1 ≠ kd.2)) = true) :
    exec_handler table digestNow runQueued session db g =
      (encode_null_array, clearTxn session, db, g) := by
  unfold exec_handler
  rw [hin, hdirty, hne, hany]
  simp

/-- EXEC with a clean transaction and no changed watched digest never
returns the null array. -/
theorem exec_handler_unchanged_not_null (table : String → Option CommandSpecM)
    (digestNow : String → Option String)
    (runQueued : Session → DB → Globals → List (List String) →
      List String × Session × DB × Globals)
    (session : Session) (db : DB) (g : Globals)
    (hin : session.in_multi = true) (hdirty : session.multi_dirty = false)
    (hanyf : (session.watched_digests.any fun kd => decide (digestNow kd.1 ≠ kd.2)) = false) :
    (exec_handler table digestNow runQueued session db g).1 ≠ encode_null_array := by
  unfold exec_handler
  rw [hin, hdirty, hanyf]
  simp only [Bool.true_eq_false, not_true_eq_false, not_false_eq_true, Bool.false_eq_true,
    and_false, if_neg, ite_false, if_false, false_and]
  split_ifs
  all_goals intro h
  all_goals dsimp only at h
  all_goals
    first
      | exact encode_array_ne_null_array _ h
      | exact absurd (congrArg String.data h) (by decide)

/-- C4: for a session in MULTI with a clean (non-dirty) transaction and a
non-empty WATCH set, EXEC returns the null array — aborting the transaction
— iff some watched key's digest at EXEC time differs from the digest
captured at WATCH time (the snapshot held in `watched_digests`); and on
such an abort the queue is discarded and the transaction closed. -/
theorem c4_exec_watch_abort_iff (table : String → Option CommandSpecM)
    (digestNow : String → Option String)
    (runQueued : Session → DB → Globals → List (List String) →
      List String × Session × DB × Globals)
    (session : Session) (db : DB) (g : Globals)
    (hin : session.in_multi = true) (hdirty : session.multi_dirty = false)
    (hwatch : session.watched_digests ≠ []) :
    ((exec_handler table digestNow runQueued session db g).1 = encode_null_array ↔
      ∃ kd ∈ session.watched_digests, digestNow kd.1 ≠ kd.2) ∧
    ((∃ kd ∈ session.watched_digests, digestNow kd.1 ≠ kd.2) →
      (exec_handler table digestNow runQueued session db g).2.1.queued = [] ∧
      (exec_handler table digestNow runQueued session db g).2.1.in_multi = false) := by
  have hne : session.watched_digests.isEmpty = false := by
    cases hw : session.watched_digests with
    | nil => exact absurd hw hwatch
    | cons a l => rfl
  by_cases hany :
      (session.watched_digests.any fun kd => decide (digestNow kd.1 ≠ kd.2)) = true
  · have hex : ∃ kd ∈ session.watched_digests, digestNow kd.1 ≠ kd.2 := by
      simpa using List.any_eq_true.mp hany
    have heq := exec_handler_changed_eq table digestNow runQueued session db g
      hin hdirty hne hany
    rw [heq]
    exact ⟨⟨fun _ => hex, fun _ => rfl⟩, fun _ => ⟨rfl, rfl⟩⟩
  · have hanyf : (session.watched_digests.any fun kd => decide (digestNow kd.1 ≠ kd.2)) =
        false := by rwa [Bool.not_eq_true] at hany
    have hnex : ¬∃ kd ∈ session.watched_digests, digestNow kd.1 ≠ kd.2 := by
      intro hex
      apply hany
      apply List.any_eq_true.mpr
      obtain ⟨kd, hmem, hd⟩ := hex
      exact ⟨kd, hmem, by simpa using hd⟩
    have hnn := exec_handler_unchanged_not_null table digestNow runQueued session db g
      hin hdirty hanyf
    exact ⟨⟨fun hnull => absurd hnull hnn, fun hex => absurd hex hnex⟩,
      fun hex => absurd hex hnex⟩

/-- Witness for C4 at a concrete input: one watched key whose digest
changed between WATCH and EXEC. -/
theorem c4_witness :
    (exec_handler (fun _ => none) (fun _ => some "h2")
      (fun s db g _ => ([], s, db, g))
      { in_multi := true, watched_digests := [("x", some "h1")] } [] {}).1 =
      encode_null_array :=
  (c4_exec_watch_abort_iff (fun _ => none) (fun _ => some "h2")
      (fun s db g _ => ([], s, db, g))
      { in_multi := true, watched_digests := [("x", some "h1")] } [] {}
      rfl rfl (by decide)).1.mpr
    ⟨("x", some "h1"), by decide, by decide⟩

/-- Witness for C8 at concrete inputs. -/
theorem c8_witness :
    (zadd_handler ["ZADD", "k", "INCR", "1", "m", "2", "n"] {} [] 0).reply =
      encode_error "INCR option supports a single increment-element pair" ∧
    (zadd_handler ["ZADD", "k", "NX", "XX", "1", "m"] {} [] 0).reply = encode_integer 0 ∧
    (zadd_handler ["ZADD", "k", "GT", "LT", "1", "m"] {} [] 0).reply = encode_integer 1 := by
  obtain ⟨h1, ⟨h2, -⟩, -, h4⟩ :=
    c8_zadd_option_checks [] 0 "k" "1" "m" "2" "n" (.num ⟨1, 1⟩) {}
      (by decide) rfl rfl
  exact ⟨h1, h2, h4⟩

/-- C1 (amended): for a command whose resolved handler performs no nested
dispatch (`epoch_bumps = 0`; this excludes the `EVAL`/`EVALSHA`/`FCALL`
forms, whose handlers re-enter `handle_command` and bump the epoch per
nested write), `handle_command` never changes `g_mutation_epoch` when it
returns an error reply; and when additionally the script-busy gate is off,
the session is not inside `MULTI`, and the command resolves to a
write-flagged table entry, a non-error reply comes with the epoch
incremented by exactly one.  (The unamended claim fails twice, see the
counterexample: a write queued inside `MULTI` replies `+QUEUED`, a success,
without touching the epoch; and a re-entrant script handler can return an
error with the epoch already moved, or a success with the epoch moved by
more than one.) -/
theorem c1_epoch_discipline (t : String → Option CommandSpecM)
    (m : String → Option (List String → Option String)) (ibs : Bool)
    (args : List String) (session : Session) (db : DB) (g : Globals) (now : Int)
    (hnr : ∀ spec : CommandSpecM, t (upperStr (args.headD "")) = some spec →
      ∀ (s : Session) (d : DB), (spec.handler args s d now).epoch_bumps = 0) :
    (is_error_reply (handle_command t m ibs args session db g now).reply = true →
      (handle_command t m ibs args session db g now).g.mutation_epoch =
        g.mutation_epoch) ∧
    (∀ spec : CommandSpecM, g.script_busy = false → session.in_multi = false →
      t (upperStr (args.headD "")) = some spec → spec.is_write = true →
      is_error_reply (handle_command t m ibs args session db g now).reply = false →
      (handle_command t m ibs args session db g now).g.mutation_epoch =
        g.mutation_epoch + 1) := by
  constructor
  · intro h
    unfold handle_command at h ⊢
    dsimp only at h ⊢
    split_ifs at h ⊢
    all_goals first
      | rfl
      | exact handle_command_core_epoch_of_error _ _ _ _ _ _ _ _ hnr h
  · intro spec hbusy hin ht hw hsucc
    by_cases hp : args.isEmpty = true ∨ args.headD "" = "__empty__" ∨
        args.headD "" = "__parse_error__"
    · unfold handle_command at hsucc
      rw [if_pos hp] at hsucc
      dsimp only at hsucc
      rw [is_error_reply_encode_error] at hsucc
      exact absurd hsucc (by decide)
    · rw [handle_command_not_busy t m ibs args session db g now hbusy hp] at hsucc ⊢
      exact handle_command_core_epoch_of_write_success t m args _ session db g now
        spec hin ht hw (hnr spec ht) hsucc

/-- C1 counterexample, three ways.  (i) A write-flagged command (`SET`)
dispatched inside an open `MULTI` transaction draws the success reply
`+QUEUED` while the mutation epoch stays at its old value — a success reply
of a write command without an increment.  (ii) A script command whose
handler writes through nested dispatch and then fails returns an error
reply with the epoch already incremented.  (iii) The same handler with a
success reply yields epoch 2, not 1: nested increment plus the postlude. -/
theorem c1_counterexample :
    ((handle_command (fun c => if c = "SET" then some fixtureWriteSpec else none)
        (fun _ => none) false ["SET", "k", "v"]
        { in_multi := true } [] {} 0).reply = "+QUEUED\r\n" ∧
      is_error_reply
        (handle_command (fun c => if c = "SET" then some fixtureWriteSpec else none)
          (fun _ => none) false ["SET", "k", "v"]
          { in_multi := true } [] {} 0).reply = false ∧
      fixtureWriteSpec.is_write = true ∧
      (handle_command (fun c => if c = "SET" then some fixtureWriteSpec else none)
        (fun _ => none) false ["SET", "k", "v"]
        { in_multi := true } [] {} 0).g.mutation_epoch = 0) ∧
    (is_error_reply
        (handle_command (fun c => if c = "EVAL" then some fixtureScriptErrSpec else none)
          (fun _ => none) false ["EVAL", "script", "0"] {} [] {} 0).reply = true ∧
      (handle_command (fun c => if c = "EVAL" then some fixtureScriptErrSpec else none)
        (fun _ => none) false ["EVAL", "script", "0"] {} [] {} 0).g.mutation_epoch = 1) ∧
    (is_error_reply
        (handle_command (fun c => if c = "EVAL" then some fixtureScriptOkSpec else none)
          (fun _ => none) false ["EVAL", "script", "0"] {} [] {} 0).reply = false ∧
      fixtureScriptOkSpec.is_write = true ∧
      (handle_command (fun c => if c = "EVAL" then some fixtureScriptOkSpec else none)
        (fun _ => none) false ["EVAL", "script", "0"] {} [] {} 0).g.mutation_epoch = 2) :=
  ⟨⟨rfl, rfl, rfl, rfl⟩, ⟨rfl, rfl⟩, ⟨rfl, rfl, rfl⟩⟩

/-- C1 witness: an executed write (`SET` outside `MULTI`, success reply)
increments the epoch from 0 to 1 via `c1_epoch_discipline`. -/
theorem c1_witness :
    (handle_command (fun c => if c = "SET" then some fixtureWriteSpec else none)
        (fun _ => none) false ["SET", "k", "v"] {} [] {} 0).g.mutation_epoch = 0 + 1 :=
  (c1_epoch_discipline (fun c => if c = "SET" then some fixtureWriteSpec else none)
      (fun _ => none) false ["SET", "k", "v"] {} [] {} 0
      (fun spec hspec s d => by
        obtain rfl := Option.some.inj hspec
        rfl)).2
    fixtureWriteSpec rfl rfl rfl rfl (by decide)

/-- C2 (amended): after a successful write dispatched outside `MULTI` (busy
gate off, exec-capture off) whose form is not journal-suppressed, the
replication journal grows by at least one entry.  (The unamended claim
fails for the suppressed forms of section 4.5: `DEL` of a missing key is a
successful write — reply `:0`, epoch bumped — whose journal event is
dropped; see the counterexample.) -/
theorem c2_journal_growth (t : String → Option CommandSpecM)
    (m : String → Option (List String → Option String)) (ibs : Bool)
    (args : List String) (session : Session) (db : DB) (g : Globals) (now : Int) :
    ∀ spec : CommandSpecM, g.script_busy = false → session.in_multi = false →
    g.capture_exec_replication = false →
    t (upperStr (args.headD "")) = some spec → spec.is_write = true →
    is_error_reply (handle_command t m ibs args session db g now).reply = false →
    journal_suppressed (handle_command t m ibs args session db g now).db now args
      (handle_command t m ibs args session db g now).reply = false →
    g.replication_events.length + 1 ≤
      (handle_command t m ibs args session db g now).g.replication_events.length := by
  intro spec hbusy hin hcap ht hw hsucc hsup
  by_cases hp : args.isEmpty = true ∨ args.headD "" = "__empty__" ∨
      args.headD "" = "__parse_error__"
  · unfold handle_command at hsucc
    rw [if_pos hp] at hsucc
    dsimp only at hsucc
    rw [is_error_reply_encode_error] at hsucc
    exact absurd hsucc (by decide)
  · have hargs : args ≠ [] := by
      intro e
      exact hp (Or.inl (by simp [e]))
    rw [handle_command_not_busy t m ibs args session db g now hbusy hp] at hsucc hsup ⊢
    exact handle_command_core_journal_of_write_success t m args _ session db g now
      spec hin ht hw hcap hargs hsucc hsup

/-- C2 counterexample: `DEL` of a missing key (via the real `del_handler`)
is a successful write — the reply `:0` is not an error and the epoch is
bumped to 1 — yet the replication journal stays empty, because the
DEL-with-non-positive-reply form is suppressed by the section-4.5 rewrite. -/
theorem c2_counterexample :
    (handle_command (fun c => if c = "DEL" then some fixtureDelSpec else none)
        (fun _ => none) false ["DEL", "nokey"] {} [] {} 0).reply = ":0\r\n" ∧
    is_error_reply
      (handle_command (fun c => if c = "DEL" then some fixtureDelSpec else none)
        (fun _ => none) false ["DEL", "nokey"] {} [] {} 0).reply = false ∧
    fixtureDelSpec.is_write = true ∧
    (handle_command (fun c => if c = "DEL" then some fixtureDelSpec else none)
        (fun _ => none) false ["DEL", "nokey"] {} [] {} 0).g.mutation_epoch = 1 ∧
    (handle_command (fun c => if c = "DEL" then some fixtureDelSpec else none)
        (fun _ => none) false ["DEL", "nokey"] {} [] {} 0).g.replication_events = [] :=
  ⟨rfl, rfl, rfl, rfl, rfl⟩

/-- C2 witness: a successful non-suppressed write (`SET k v`) grows the
journal from 0 entries to at least 1 via `c2_journal_growth`. -/
theorem c2_witness :
    ({} : Globals).replication_events.length + 1 ≤
      (handle_command (fun c => if c = "SET" then some fixtureWriteSpec else none)
        (fun _ => none) false ["SET", "k", "v"] {} [] {} 0).g.replication_events.length :=
  c2_journal_growth (fun c => if c = "SET" then some fixtureWriteSpec else none)
    (fun _ => none) false ["SET", "k", "v"] {} [] {} 0
    fixtureWriteSpec rfl rfl rfl rfl rfl (by decide) (by decide)

end Peadb
